import Mathlib

/-!
Verification development for the akmolamap backend core: cache-key
derivation, atomic cache writes, resolution selection, provider-gateway
retry/classification, statistics/trend computation, status classification
and the job tracker.  Python sources are embedded shallowly: machine floats
become rationals, byte strings become lists of naturals, the filesystem and
the in-memory job registry become explicit state values.
-/

namespace Akmola

/- ------------------------------------------------------------------ -/
/- Resolution selector: backend/utils/geo.py and backend/biopar.py    -/
/- ------------------------------------------------------------------ -/

/-- Constant `BIOPAR_MIN_MPP` from backend/settings.py (line 104). -/
def BIOPAR_MIN_MPP : ℤ := 10

/-- Constant `BIOPAR_MAX_MPP` from backend/settings.py (line 105). -/
def BIOPAR_MAX_MPP : ℤ := 300

/-- Constant `MIN_PIXELS` from backend/settings.py (line 112). -/
def MIN_PIXELS : ℤ := 64

/-- Constant `MAX_PIXELS` from backend/settings.py (line 113). -/
def MAX_PIXELS : ℤ := 4096

/-- `_approx_bbox_size_meters` from backend/biopar.py (lines 123-141).
`bbox = [minx, miny, maxx, maxy]` in degrees.  The source computes
`cos(radians(lat_mid))`; the cosine is transcendental, so its value is
taken as the parameter `cosLatMid` (at the equator the source computes
`math.cos(0.0) = 1.0` exactly). -/
def approx_bbox_size_meters (bbox : List ℚ) (cosLatMid : ℚ) : ℚ × ℚ :=
  let minx := bbox.getD 0 0
  let miny := bbox.getD 1 0
  let maxx := bbox.getD 2 0
  let maxy := bbox.getD 3 0
  let mPerDegLat : ℚ := 111320
  let mPerDegLon : ℚ := 111320 * cosLatMid
  (max 1 ((maxx - minx) * mPerDegLon), max 1 ((maxy - miny) * mPerDegLat))

/-- Core of `_choose_resolution_for_biopar` from backend/biopar.py
(lines 144-174), expressed on the physical bbox size in meters.
Mirrors: clamp the target resolution into `[BIOPAR_MIN_MPP, BIOPAR_MAX_MPP]`,
take `ceil(size / mpp)` clamped into `[MIN_PIXELS, MAX_PIXELS]`, then if the
effective resolution still exceeds `BIOPAR_MAX_MPP` enlarge the pixel counts
from `ceil(size / BIOPAR_MAX_MPP)` (still capped at `MAX_PIXELS`). -/
def choose_resolution_core (w_m h_m : ℚ) (target_mpp : ℤ) : ℤ × ℤ :=
  let mpp : ℤ := max BIOPAR_MIN_MPP (min target_mpp BIOPAR_MAX_MPP)
  let w_px := max MIN_PIXELS (min MAX_PIXELS ⌈w_m / (mpp : ℚ)⌉)
  let h_px := max MIN_PIXELS (min MAX_PIXELS ⌈h_m / (mpp : ℚ)⌉)
  let eff_mpp : ℚ := max (w_m / (w_px : ℚ)) (h_m / (h_px : ℚ))
  if (BIOPAR_MAX_MPP : ℚ) < eff_mpp then
    (max w_px (min MAX_PIXELS ⌈w_m / (BIOPAR_MAX_MPP : ℚ)⌉),
     max h_px (min MAX_PIXELS ⌈h_m / (BIOPAR_MAX_MPP : ℚ)⌉))
  else (w_px, h_px)

/-- `_choose_resolution_for_biopar` from backend/biopar.py (lines 144-174):
bbox sizes come from `_approx_bbox_size_meters`. -/
def choose_resolution_for_biopar (bbox : List ℚ) (cosLatMid : ℚ)
    (target_mpp : ℤ) : ℤ × ℤ :=
  let wh := approx_bbox_size_meters bbox cosLatMid
  choose_resolution_core wh.1 wh.2 target_mpp

/- ------------------------------------------------------------------ -/
/- Shared string/number helpers                                       -/
/- ------------------------------------------------------------------ -/

/-- Python `str.upper()` restricted to ASCII, as used on indicator-type
strings such as `"fapar"` (the source only ever passes ASCII names). -/
def ascii_upper (s : String) : String := String.mk (s.data.map Char.toUpper)

/-- Python `str.lower()` restricted to ASCII. -/
def ascii_lower (s : String) : String := String.mk (s.data.map Char.toLower)

/-- Python `round()` ties-to-even on a rational, returning an integer. -/
def roundHalfEven (q : ℚ) : ℤ :=
  let f := ⌊q⌋
  let r := q - (f : ℚ)
  if r < 1/2 then f
  else if 1/2 < r then f + 1
  else if f % 2 = 0 then f else f + 1

/-- Python `round(x, n)` on a rational: round ties-to-even at `n` decimal
places.  (Binary-float double rounding is not modelled; on the decimal
values the source feeds through this, the two agree.) -/
def round_dec (n : ℕ) (q : ℚ) : ℚ :=
  ((roundHalfEven (q * ((10 ^ n : ℕ) : ℚ))) : ℚ) / ((10 ^ n : ℕ) : ℚ)

/- ------------------------------------------------------------------ -/
/- Status classification: classify_biopar_status, biopar.py 1186-1378 -/
/- ------------------------------------------------------------------ -/

/-- `classify_biopar_status` from backend/biopar.py (lines 1186-1378),
projected onto its `"status"` field (the `"level"`/`"description"` strings
in the source are in 1-1 correspondence with the status and carry no extra
branching). -/
def classify_biopar_status (biopar_type : String) (mean_value : Option ℚ) : String :=
  match mean_value with
  | none => "no_data"
  | some v =>
    let t := ascii_upper biopar_type
    if t = "FAPAR" then
      if v < 1/10 then "very_low"
      else if v < 1/4 then "low"
      else if v < 1/2 then "moderate"
      else if v < 7/10 then "optimal"
      else "high"
    else if t = "LAI" then
      if v < 1/2 then "very_low"
      else if v < 3/2 then "low"
      else if v < 3 then "moderate"
      else if v < 5 then "optimal"
      else "high"
    else if t = "FCOVER" then
      if v < 1/5 then "very_low"
      else if v < 2/5 then "low"
      else if v < 3/5 then "moderate"
      else if v < 4/5 then "optimal"
      else "high"
    else if t = "CCC" then
      if v < 50 then "very_low"
      else if v < 100 then "low"
      else if v < 200 then "moderate"
      else if v < 300 then "optimal"
      else "high"
    else if t = "CWC" then
      if v < 100 then "very_low"
      else if v < 200 then "low"
      else if v < 400 then "moderate"
      else if v < 600 then "optimal"
      else "high"
    else "neutral"

/-- The five status bins, in ascending order of vegetation density. -/
def biopar_bins : List String := ["very_low", "low", "moderate", "optimal", "high"]

/-- Modelled from the spec: the "fixed ordered threshold table
(non-overlapping, ascending bins)" per indicator type, against which the
source classifier is compared.  The four cut points per type are the
boundaries appearing in `classify_biopar_status`. -/
def spec_threshold_table (t : String) : List ℚ :=
  if t = "FAPAR" then [1/10, 1/4, 1/2, 7/10]
  else if t = "LAI" then [1/2, 3/2, 3, 5]
  else if t = "FCOVER" then [1/5, 2/5, 3/5, 4/5]
  else if t = "CCC" then [50, 100, 200, 300]
  else if t = "CWC" then [100, 200, 400, 600]
  else []

/- ------------------------------------------------------------------ -/
/- Statistics & trend engine: biopar.py 1112-1140 and 922-945         -/
/- ------------------------------------------------------------------ -/

/-- The trend part of a BIOPAR response (`"trend"` dict in the source,
minus the free-text `"description"`, which is determined by direction). -/
structure TrendSummary where
  direction : String
  slope : ℚ
  r_squared : ℚ
  p_value : ℚ
  deriving Repr, DecidableEq

/-- Arithmetic mean of a rational list (`np.mean`). -/
def qmean (l : List ℚ) : ℚ := l.sum / (l.length : ℚ)

/-- Slope of the ordinary least-squares line of `ys` against `xs`
(`scipy.stats.linregress(...).slope`). -/
def linregress_slope (xs ys : List ℚ) : ℚ :=
  let mx := qmean xs
  let my := qmean ys
  let sxx := (xs.map (fun x => (x - mx) ^ 2)).sum
  let sxy := ((xs.zip ys).map (fun p => (p.1 - mx) * (p.2 - my))).sum
  sxy / sxx

/-- Coefficient of determination of the least-squares fit
(`scipy.stats.linregress(...).rvalue ** 2`; `r = 0` when either variance
vanishes, as in scipy). -/
def linregress_r2 (xs ys : List ℚ) : ℚ :=
  let mx := qmean xs
  let my := qmean ys
  let sxx := (xs.map (fun x => (x - mx) ^ 2)).sum
  let syy := (ys.map (fun y => (y - my) ^ 2)).sum
  let sxy := ((xs.zip ys).map (fun p => (p.1 - mx) * (p.2 - my))).sum
  if sxx * syy = 0 then 0 else sxy ^ 2 / (sxx * syy)

/-- The `(index, mean)` pairs of the non-null timeline entries: source
lines 1113-1114 (`xs = [i for i, t in enumerate(timeline) if t.get("mean")
is not None]`, `ys = [t["mean"] for t in timeline ...]`). -/
def non_null_points (timeline : List (Option ℚ)) : List (ℕ × ℚ) :=
  timeline.enum.filterMap (fun p => p.2.map (fun v => (p.1, v)))

/-- The trend computation of `get_biopar_timeseries` (backend/biopar.py,
lines 1112-1140); `_get_biopar_stats_statistical_api` (lines 922-945) is
the same computation with `eps = 1/1000` instead of `1/10000`.  The
regression p-value comes from a Student-t CDF, which is transcendental, so
the p-value function is a parameter `pv`; the sentinel branch never
evaluates it. -/
def compute_trend (pv : List ℚ → List ℚ → ℚ) (eps : ℚ)
    (timeline : List (Option ℚ)) : TrendSummary :=
  let pts := non_null_points timeline
  let xs := pts.map (fun p => ((p.1 : ℚ)))
  let ys := pts.map (fun p => p.2)
  if 3 ≤ ys.length then
    let slope := linregress_slope xs ys
    let dir := if |slope| < eps then "stable"
      else if 0 < slope then "increasing" else "decreasing"
    { direction := dir
      slope := round_dec 6 slope
      r_squared := round_dec 3 (linregress_r2 xs ys)
      p_value := round_dec 4 (pv xs ys) }
  else
    { direction := "insufficient_data", slope := 0, r_squared := 0, p_value := 1 }

/- ------------------------------------------------------------------ -/
/- Provider gateway: fetch_biopar_geotiff, biopar_sentinelhub.py      -/
/- ------------------------------------------------------------------ -/

/-- The exception kinds raised by the retry loop of `fetch_biopar_geotiff`
(backend/biopar_sentinelhub.py, lines 676-886). -/
inductive FetchErr where
  | noData
  | sentinelHub
  | authentication
  | httpOther (code : ℕ)
  deriving Repr, DecidableEq

/-- What one iteration of the retry loop does with a response. -/
inductive AttemptAction where
  | raiseErr (e : FetchErr)
  | retryAfterSleep (seconds : ℚ)
  | finish (content : List ℕ)
  deriving Repr, DecidableEq

/-- An HTTP response from the Processing API, as the loop inspects it:
status code, the parsed integer `Retry-After` header when present, the
response text and the raw body bytes. -/
structure UpstreamResponse where
  statusCode : ℕ
  retryAfterHeader : Option ℤ
  text : String
  content : List ℕ
  deriving Repr, DecidableEq

/-- `pat` is a leading prefix of `s`. -/
def starts_with_chars : List Char → List Char → Bool
  | _, [] => true
  | [], _ :: _ => false
  | c :: cs, p :: ps => decide (c = p) && starts_with_chars cs ps

/-- `pat` occurs as a contiguous substring of `s` (Python `pat in s`). -/
def char_list_contains : List Char → List Char → Bool
  | [], pat => starts_with_chars [] pat
  | c :: cs, pat => starts_with_chars (c :: cs) pat || char_list_contains cs pat

/-- Lines 701-704: `any(phrase in error_lower for phrase in ["no data",
"no satellite", "no scenes", "no products"])` on the lower-cased body. -/
def has_no_data_phrase (text : String) : Bool :=
  let lower := (ascii_lower text).data
  ["no data", "no satellite", "no scenes", "no products"].any
    (fun p => char_list_contains lower p.data)

/-- Line 846 (`_get_biopar_stats_statistical_api`, backend/biopar.py):
the Statistical-API 400 handler, which only checks `"no data"`. -/
def stat_has_no_data_phrase (text : String) : Bool :=
  char_list_contains (ascii_lower text).data "no data".data

/-- Lines 727: `int(resp.headers.get("Retry-After", retry_delay * 1000))`.
The parsed header value when present, else `retry_delay * 1000`. -/
def retry_after_ms (r : UpstreamResponse) (retry_delay : ℤ) : ℤ :=
  match r.retryAfterHeader with
  | some v => v
  | none => retry_delay * 1000

/-- Line 760: `MIN_VALID_SIZE = 1000`. -/
def MIN_VALID_SIZE : ℕ := 1000

/-- Lines 779-780: the body starts with one of the two TIFF magic-number
prefixes `II\x2a\x00` or `MM\x00\x2a`. -/
def is_tiff_magic (content : List ℕ) : Bool :=
  content.take 4 = [73, 73, 42, 0] || content.take 4 = [77, 77, 0, 42]

/-- One iteration of the retry loop of `fetch_biopar_geotiff`
(backend/biopar_sentinelhub.py, lines 679-791): given the attempt number,
the retry budget `max_retries`, the backoff `retry_delay` (seconds) and
the response, decide to raise, sleep-and-retry, or accept the body.
`retryAfterSleep s` records the argument of `time.sleep` in seconds. -/
def handle_attempt (max_retries : ℕ) (retry_delay : ℤ) (attempt : ℕ)
    (r : UpstreamResponse) : AttemptAction :=
  if r.statusCode = 400 then
    if has_no_data_phrase r.text then .raiseErr .noData
    else .raiseErr .sentinelHub
  else if r.statusCode = 401 then
    if attempt < max_retries then .retryAfterSleep (retry_delay : ℚ)
    else .raiseErr .authentication
  else if r.statusCode = 429 then
    if attempt < max_retries then
      .retryAfterSleep ((retry_after_ms r retry_delay : ℚ) / 1000)
    else .raiseErr .sentinelHub
  else if r.statusCode = 502 ∨ r.statusCode = 503 ∨ r.statusCode = 504 then
    if attempt < max_retries then .retryAfterSleep (retry_delay : ℚ)
    else .raiseErr .sentinelHub
  else if r.statusCode ≠ 200 then
    .raiseErr (.httpOther r.statusCode)
  else if r.content.length < MIN_VALID_SIZE then
    if attempt < max_retries then .retryAfterSleep (retry_delay : ℚ)
    else .raiseErr .noData
  else if is_tiff_magic r.content = false then
    if attempt < max_retries then .retryAfterSleep (retry_delay : ℚ)
    else .raiseErr .sentinelHub
  else .finish r.content

/-- The retry loop `for attempt in range(max_retries + 1)` of
`fetch_biopar_geotiff`, driven by the sequence of responses the upstream
would return on successive attempts.  Returns the outcome together with
the number of attempts actually made.  `left` counts the loop iterations
still available; the `left = 0` case is the defensive raise at line 884. -/
def run_fetch_aux (max_retries : ℕ) (retry_delay : ℤ)
    (responses : ℕ → UpstreamResponse) :
    (left attempt : ℕ) → Except FetchErr (List ℕ) × ℕ
  | 0, attempt => (.error .sentinelHub, attempt)
  | left + 1, attempt =>
    match handle_attempt max_retries retry_delay attempt (responses attempt) with
    | .finish c => (.ok c, attempt + 1)
    | .raiseErr e => (.error e, attempt + 1)
    | .retryAfterSleep _ => run_fetch_aux max_retries retry_delay responses left (attempt + 1)

/-- The whole retry loop of `fetch_biopar_geotiff`: outcome and number of
attempts made. -/
def run_fetch (max_retries : ℕ) (retry_delay : ℤ)
    (responses : ℕ → UpstreamResponse) : Except FetchErr (List ℕ) × ℕ :=
  run_fetch_aux max_retries retry_delay responses (max_retries + 1) 0

/- ------------------------------------------------------------------ -/
/- Atomic cache store: atomic_write_cache, backend/utils/cache.py     -/
/- ------------------------------------------------------------------ -/

/-- The slice of the filesystem `atomic_write_cache` touches: the final
cache path and its temporary sibling, each absent or holding bytes. -/
structure CacheFsState where
  finalFile : Option (List ℕ)
  tmpFile : Option (List ℕ)
  deriving Repr, DecidableEq

/-- Where a run of `atomic_write_cache` (backend/utils/cache.py, lines
227-254) can fail: while writing (with a prefix of `k` bytes already on
disk), in `os.fsync`, or in `tmp_path.rename` before the rename takes
effect (`rename` is atomic, so there is no mid-rename state). -/
inductive WriteFailure where
  | duringWrite (k : ℕ)
  | duringFsync
  | beforeRename
  deriving Repr, DecidableEq

/-- The sequence of filesystem states a concurrent reader could observe
during one run of `write_atomic` (lines 227-254): after the temp file is
created, after each phase of the write, and after the rename or the
exception-handler cleanup (`tmp_path.unlink`).  `failure = none` is the
success path. -/
def write_atomic_steps (s0 : CacheFsState) (content : List ℕ)
    (failure : Option WriteFailure) : List CacheFsState :=
  match failure with
  | none =>
    [{ finalFile := s0.finalFile, tmpFile := some [] },
     { finalFile := s0.finalFile, tmpFile := some content },
     { finalFile := s0.finalFile, tmpFile := some content },
     { finalFile := some content, tmpFile := none }]
  | some (.duringWrite k) =>
    [{ finalFile := s0.finalFile, tmpFile := some [] },
     { finalFile := s0.finalFile, tmpFile := some (content.take k) },
     { finalFile := s0.finalFile, tmpFile := none }]
  | some .duringFsync =>
    [{ finalFile := s0.finalFile, tmpFile := some [] },
     { finalFile := s0.finalFile, tmpFile := some content },
     { finalFile := s0.finalFile, tmpFile := none }]
  | some .beforeRename =>
    [{ finalFile := s0.finalFile, tmpFile := some [] },
     { finalFile := s0.finalFile, tmpFile := some content },
     { finalFile := s0.finalFile, tmpFile := some content },
     { finalFile := s0.finalFile, tmpFile := none }]

/-- `atomic_write_cache` (backend/utils/cache.py, lines 201-261): the
final filesystem state, and whether the write succeeded (`raise e` at line
254 re-raises after cleanup on every failure path). -/
def atomic_write_cache (s0 : CacheFsState) (content : List ℕ)
    (failure : Option WriteFailure) : CacheFsState × Bool :=
  ((write_atomic_steps s0 content failure).getLastD
     { finalFile := s0.finalFile, tmpFile := none },
   failure.isNone)

/- ------------------------------------------------------------------ -/
/- Job tracker: backend/job_tracker.py                                -/
/- ------------------------------------------------------------------ -/

/-- `JobStatus` (backend/job_tracker.py, lines 18-24). -/
inductive JStatus where
  | pending
  | running
  | completed
  | failed
  | cancelled
  deriving Repr, DecidableEq

/-- Line 328: status is one of COMPLETED, FAILED, CANCELLED. -/
def is_terminal : JStatus → Bool
  | .completed => true
  | .failed => true
  | .cancelled => true
  | _ => false

/-- `JobProgress` (backend/job_tracker.py, lines 27-43).  Job ids are
opaque caller-supplied strings compared only for equality; they are
modelled by naturals.  Timestamps are ISO-8601 strings from a monotone
wall clock, compared lexicographically, which agrees with the numeric
order of a logical clock; they are modelled by naturals drawn from the
tracker's clock.  `result` is an opaque payload, modelled by `Bool`
presence. -/
structure JobProgress where
  job_id : ℕ
  job_type : String
  status : JStatus
  progress_pct : ℚ
  current_step : Option String
  total_steps : Option ℕ
  completed_steps : ℕ
  message : Option String
  result : Bool
  error : Option String
  created_at : ℕ
  started_at : Option ℕ
  completed_at : Option ℕ
  deriving Repr, DecidableEq

/-- The `JobTracker` state (lines 76-87): the insertion-ordered dict of
jobs, the history cap, and the logical clock supplying timestamps. -/
structure JobTracker where
  jobs : List JobProgress
  max_history : ℕ
  now : ℕ
  deriving Repr, DecidableEq

/-- Python `job_id in self._jobs`. -/
def job_exists (tr : JobTracker) (id : ℕ) : Bool :=
  tr.jobs.any (fun j => j.job_id = id)

/-- Look a job up by id. -/
def find_job (tr : JobTracker) (id : ℕ) : Option JobProgress :=
  tr.jobs.find? (fun j => j.job_id = id)

/-- Mutate the job with the given id in place (Python mutates the
`JobProgress` object held in the dict; ids in the dict are unique). -/
def map_job (id : ℕ) (f : JobProgress → JobProgress)
    (jobs : List JobProgress) : List JobProgress :=
  jobs.map (fun j => if j.job_id = id then f j else j)

/-- `create_job` (lines 89-117): builds a fresh pending job and stores it
under its id (Python dict assignment: replaces in place if the id exists,
appends otherwise). -/
def create_job (tr : JobTracker) (id : ℕ) (job_type : String)
    (total_steps : Option ℕ) : JobTracker :=
  let job : JobProgress :=
    { job_id := id, job_type := job_type, status := .pending
      progress_pct := 0, current_step := none, total_steps := total_steps
      completed_steps := 0, message := none, result := false, error := none
      created_at := tr.now, started_at := none, completed_at := none }
  if job_exists tr id then
    { tr with jobs := map_job id (fun _ => job) tr.jobs, now := tr.now + 1 }
  else
    { tr with jobs := tr.jobs ++ [job], now := tr.now + 1 }

/-- The per-job mutation of `start_job` (lines 131-135). -/
def apply_start (now : ℕ) (message : Option String) (j : JobProgress) :
    JobProgress :=
  { j with status := .running, started_at := some now
           message := message.orElse (fun _ => j.message) }

/-- `start_job` (lines 119-136): unconditionally sets RUNNING and the
start timestamp on the named job. -/
def start_job (tr : JobTracker) (id : ℕ) (message : Option String) :
    Except String JobTracker :=
  if job_exists tr id = false then .error "Job not found"
  else .ok { tr with
    jobs := map_job id (apply_start tr.now message) tr.jobs
    now := tr.now + 1 }

/-- The per-job mutation of `update_progress` (lines 160-175): optional
percent (clamped into [0, 100]), step label, message, and step increment
with auto-derived percent when `total_steps` is known.  Never touches
`status`. -/
def apply_progress_update (progress_pct : Option ℚ)
    (current_step : Option String) (message : Option String)
    (increment_steps : Bool) (j : JobProgress) : JobProgress :=
  let j := match progress_pct with
    | some p => { j with progress_pct := min 100 (max 0 p) }
    | none => j
  let j := match current_step with
    | some c => { j with current_step := some c }
    | none => j
  let j := match message with
    | some m => { j with message := some m }
    | none => j
  if increment_steps then
    let j := { j with completed_steps := j.completed_steps + 1 }
    match j.total_steps with
    | some ts =>
      if 0 < ts then
        { j with progress_pct := ((j.completed_steps : ℚ) / (ts : ℚ)) * 100 }
      else j
    | none => j
  else j

/-- `update_progress` (lines 138-175). -/
def update_progress (tr : JobTracker) (id : ℕ) (progress_pct : Option ℚ)
    (current_step : Option String) (message : Option String)
    (increment_steps : Bool) : Except String JobTracker :=
  if job_exists tr id = false then .error "Job not found"
  else .ok { tr with
    jobs := map_job id
      (apply_progress_update progress_pct current_step message increment_steps)
      tr.jobs }

/-- `_cleanup_old_jobs` (lines 322-339): collect the finished jobs, and if
they exceed `max_history`, delete the oldest ones by completion timestamp
(`sort(key=lambda x: x[1].completed_at or "")`, a stable sort, modelled by
stable insertion sort on the numeric timestamp with `None` as 0). -/
def sort_on (key : JobProgress → ℕ) : List JobProgress → List JobProgress
  | [] => []
  | x :: xs => insert_sorted key x (sort_on key xs)
where
  insert_sorted (key : JobProgress → ℕ) (x : JobProgress) :
      List JobProgress → List JobProgress
    | [] => [x]
    | y :: ys => if key x ≤ key y then x :: y :: ys
      else y :: insert_sorted key x ys

/-- See `sort_on`: the body of `_cleanup_old_jobs`. -/
def cleanup_old_jobs (max_history : ℕ) (jobs : List JobProgress) :
    List JobProgress :=
  let finished := jobs.filter (fun j => is_terminal j.status)
  if max_history < finished.length then
    let sorted := sort_on (fun j => j.completed_at.getD 0) finished
    let to_remove := sorted.take (finished.length - max_history)
    jobs.filter (fun j => (to_remove.any (fun r => r.job_id = j.job_id)) = false)
  else jobs

/-- The per-job mutation of `complete_job` (lines 195-202). -/
def apply_complete (now : ℕ) (result : Bool) (message : Option String)
    (j : JobProgress) : JobProgress :=
  { j with status := .completed, progress_pct := 100
           completed_at := some now
           result := result || j.result
           message := message.orElse (fun _ => j.message) }

/-- `complete_job` (lines 177-206): set COMPLETED, progress 100, record
the completion timestamp, then run `_cleanup_old_jobs`. -/
def complete_job (tr : JobTracker) (id : ℕ) (result : Bool)
    (message : Option String) : Except String JobTracker :=
  if job_exists tr id = false then .error "Job not found"
  else .ok
    { tr with
      jobs := cleanup_old_jobs tr.max_history
        (map_job id (apply_complete tr.now result message) tr.jobs)
      now := tr.now + 1 }

/-- The per-job mutation of `fail_job` (lines 221-226). -/
def apply_fail (now : ℕ) (error : String) (message : Option String)
    (j : JobProgress) : JobProgress :=
  { j with status := .failed, error := some error
           completed_at := some now
           message := message.orElse (fun _ => j.message) }

/-- `fail_job` (lines 208-230): set FAILED, record the error and the
completion timestamp, then run `_cleanup_old_jobs`. -/
def fail_job (tr : JobTracker) (id : ℕ) (error : String)
    (message : Option String) : Except String JobTracker :=
  if job_exists tr id = false then .error "Job not found"
  else .ok
    { tr with
      jobs := cleanup_old_jobs tr.max_history
        (map_job id (apply_fail tr.now error message) tr.jobs)
      now := tr.now + 1 }

/-- The per-job mutation of `cancel_job` (lines 244-248). -/
def apply_cancel (now : ℕ) (message : Option String) (j : JobProgress) :
    JobProgress :=
  { j with status := .cancelled, completed_at := some now
           message := message.orElse (fun _ => j.message) }

/-- `cancel_job` (lines 232-249): set CANCELLED and the completion
timestamp.  Note: unlike `complete_job`/`fail_job`, it does NOT call
`_cleanup_old_jobs`. -/
def cancel_job (tr : JobTracker) (id : ℕ) (message : Option String) :
    Except String JobTracker :=
  if job_exists tr id = false then .error "Job not found"
  else .ok { tr with
    jobs := map_job id (apply_cancel tr.now message) tr.jobs
    now := tr.now + 1 }

/-- A fresh tracker (`JobTracker(max_history=...)`, lines 76-87). -/
def mk_tracker (max_history : ℕ) : JobTracker :=
  { jobs := [], max_history := max_history, now := 0 }

/- ------------------------------------------------------------------ -/
/- SHA-256 (hashlib.sha256), over byte lists                          -/
/- ------------------------------------------------------------------ -/

/-- 32-bit rotate right. -/
def rotr32 (n x : ℕ) : ℕ := ((x >>> n) ||| (x <<< (32 - n))) % 4294967296

/-- SHA-256 big sigma-0. -/
def bsig0 (x : ℕ) : ℕ := rotr32 2 x ^^^ rotr32 13 x ^^^ rotr32 22 x

/-- SHA-256 big sigma-1. -/
def bsig1 (x : ℕ) : ℕ := rotr32 6 x ^^^ rotr32 11 x ^^^ rotr32 25 x

/-- SHA-256 small sigma-0. -/
def ssig0 (x : ℕ) : ℕ := rotr32 7 x ^^^ rotr32 18 x ^^^ (x >>> 3)

/-- SHA-256 small sigma-1. -/
def ssig1 (x : ℕ) : ℕ := rotr32 17 x ^^^ rotr32 19 x ^^^ (x >>> 10)

/-- The 64 SHA-256 round constants (FIPS 180-4, in decimal). -/
def shaK : List ℕ :=
  [1116352408, 1899447441, 3049323471, 3921009573, 961987163,
   1508970993, 2453635748, 2870763221, 3624381080, 310598401,
   607225278, 1426881987, 1925078388, 2162078206, 2614888103,
   3248222580, 3835390401, 4022224774, 264347078, 604807628,
   770255983, 1249150122, 1555081692, 1996064986, 2554220882,
   2821834349, 2952996808, 3210313671, 3336571891, 3584528711,
   113926993, 338241895, 666307205, 773529912, 1294757372,
   1396182291, 1695183700, 1986661051, 2177026350, 2456956037,
   2730485921, 2820302411, 3259730800, 3345764771, 3516065817,
   3600352804, 4094571909, 275423344, 430227734, 506948616,
   659060556, 883997877, 958139571, 1322822218, 1537002063,
   1747873779, 1955562222, 2024104815, 2227730452, 2361852424,
   2428436474, 2756734187, 3204031479, 3329325298]

/-- The SHA-256 initial hash value (FIPS 180-4, in decimal). -/
def shaH0 : List ℕ :=
  [1779033703, 3144134277, 1013904242,
   2773480762, 1359893119, 2600822924,
   528734635, 1541459225]

/-- Big-endian bytes of `v`, `n` bytes wide. -/
def to_bytes_be (n v : ℕ) : List ℕ :=
  (List.range n).map (fun i => (v >>> (8 * (n - 1 - i))) % 256)

/-- SHA-256 padding: append `0x80`, zero-fill to 56 mod 64, then the
64-bit big-endian bit length. -/
def pad_message (msg : List ℕ) : List ℕ :=
  let padLen := (64 + 56 - ((msg.length + 1) % 64)) % 64
  msg ++ [128] ++ List.replicate padLen 0 ++ to_bytes_be 8 (msg.length * 8)

/-- Split into 64-byte chunks (fuel-driven; fuel = list length). -/
def chunks64_aux : ℕ → List ℕ → List (List ℕ)
  | 0, _ => []
  | _ + 1, [] => []
  | fuel + 1, l => l.take 64 :: chunks64_aux fuel (l.drop 64)

/-- See `chunks64_aux`. -/
def chunks64 (l : List ℕ) : List (List ℕ) := chunks64_aux l.length l

/-- Combine big-endian bytes into one word. -/
def bytes_to_word (b : List ℕ) : ℕ := b.foldl (fun acc x => acc * 256 + x) 0

/-- The 16 message words of a 64-byte chunk. -/
def chunk_words (chunk : List ℕ) : List ℕ :=
  (List.range 16).map (fun i => bytes_to_word ((chunk.drop (4 * i)).take 4))

/-- Extend 16 message words to the 64-word schedule. -/
def schedule (chunk : List ℕ) : Array ℕ :=
  (List.range 48).foldl
    (fun w _ =>
      let t := w.size
      w.push ((ssig1 (w.getD (t - 2) 0) + w.getD (t - 7) 0 +
               ssig0 (w.getD (t - 15) 0) + w.getD (t - 16) 0) % 4294967296))
    (Array.mk (chunk_words chunk))

/-- One SHA-256 round on the eight working variables. -/
def compress_round (k w : ℕ) (s : List ℕ) : List ℕ :=
  let a := s.getD 0 0
  let b := s.getD 1 0
  let c := s.getD 2 0
  let d := s.getD 3 0
  let e := s.getD 4 0
  let f := s.getD 5 0
  let g := s.getD 6 0
  let hh := s.getD 7 0
  let ch := (e &&& f) ^^^ ((e ^^^ 4294967295) &&& g)
  let maj := (a &&& b) ^^^ (a &&& c) ^^^ (b &&& c)
  let t1 := (hh + bsig1 e + ch + k + w) % 4294967296
  let t2 := (bsig0 a + maj) % 4294967296
  [(t1 + t2) % 4294967296, a, b, c, (d + t1) % 4294967296, e, f, g]

/-- Compress one 64-byte chunk into the running hash. -/
def compress_chunk (h : List ℕ) (chunk : List ℕ) : List ℕ :=
  let w := schedule chunk
  let s := (List.range 64).foldl
    (fun s i => compress_round (shaK.getD i 0) (w.getD i 0) s) h
  List.zipWith (fun x y => (x + y) % 4294967296) h s

/-- SHA-256 digest (32 bytes) of a byte string. -/
def sha256_bytes (msg : List ℕ) : List ℕ :=
  let hh := (chunks64 (pad_message msg)).foldl compress_chunk shaH0
  (hh.map (to_bytes_be 4)).flatten

/-- Lower-case hex digit. -/
def hex_digit (n : ℕ) : Char := "0123456789abcdef".data.getD n '0'

/-- Two-character hex encoding of one byte. -/
def byte_hex (b : ℕ) : List Char := [hex_digit (b / 16), hex_digit (b % 16)]

/-- `hashlib.sha256(...).hexdigest()` as a character list. -/
def sha256_hex_chars (msg : List ℕ) : List Char :=
  ((sha256_bytes msg).map byte_hex).flatten

/- ------------------------------------------------------------------ -/
/- Cache key: _cache_key, biopar_sentinelhub.py 462-504               -/
/- ------------------------------------------------------------------ -/

/-- `.encode("utf-8")` of an ASCII string (all strings the key derivation
builds are ASCII, where UTF-8 is the identity on code points). -/
def str_bytes (s : String) : List ℕ := s.data.map Char.toNat

/-- `EVALSCRIPT_VERSION` (backend/biopar_sentinelhub.py, line 79). -/
def EVALSCRIPT_VERSION : String := "biopar-v2.0"

/-- The inputs of `_cache_key` (backend/biopar_sentinelhub.py, lines
462-471). -/
structure CacheKeyInput where
  bbox : List ℚ
  start_date : String
  end_date : String
  width : ℤ
  height : ℤ
  max_cloud_coverage : ℤ
  mosaicking_order : Option String
  biopar_type : String
  deriving Repr, DecidableEq

/-- Line 495: `mosaicking_order or "default"` (`None` and the empty
string are both falsy). -/
def mosaic_or_default : Option String → String
  | none => "default"
  | some s => if s = "" then "default" else s

/-- Left-pad with zero characters to width `n`. -/
def pad_left_zeros (n : ℕ) (s : List Char) : List Char :=
  List.replicate (n - s.length) '0' ++ s

/-- Drop trailing zero characters. -/
def strip_trailing_zeros (s : List Char) : List Char :=
  (s.reverse.dropWhile (fun c => c = '0')).reverse

/-- `json.dumps` of one bbox coordinate after `round(b, 6)`: the shortest
decimal with at most six fractional digits (at least one digit kept, as in
`repr(51.0) = "51.0"`).  IEEE-754 negative zero is not modelled. -/
def json_num (q : ℚ) : String :=
  let scaled : ℤ := roundHalfEven (q * 1000000)
  let sign := if scaled < 0 then "-" else ""
  let a := scaled.natAbs
  let ip := a / 1000000
  let fp := a % 1000000
  let fracs := strip_trailing_zeros (pad_left_zeros 6 (Nat.repr fp).data)
  let frac := if fracs.isEmpty then "0" else String.mk fracs
  sign ++ Nat.repr ip ++ "." ++ frac

/-- `json.dumps` escaping of a string value (the key payload only carries
ASCII dates/type names; of those only backslash and quote need escaping). -/
def json_escape (s : String) : String :=
  String.mk (s.data.foldr
    (fun c acc => if c = '"' ∨ c = '\\' then '\\' :: c :: acc else c :: acc) [])

/-- A JSON string literal. -/
def json_str (s : String) : String := "\"" ++ json_escape s ++ "\""

/-- `", ".join`-style separator interposition. -/
def join_sep (sep : String) : List String → String
  | [] => ""
  | [x] => x
  | x :: xs => x ++ sep ++ join_sep sep xs

/-- `json.dumps(payload, sort_keys=True)` for the payload dict built at
lines 488-498: its nine keys in sorted order are bbox, biopar, cloud, end,
evalscript_version, h, mosaic, start, w; the default separators are
`", "` and `": "`. -/
def canonical_payload_json (i : CacheKeyInput) : String :=
  "\x7b\"bbox\": [" ++
    join_sep ", " (i.bbox.map (fun b => json_num (round_dec 6 b))) ++
  "], \"biopar\": " ++ json_str (ascii_upper i.biopar_type) ++
  ", \"cloud\": " ++ Int.repr i.max_cloud_coverage ++
  ", \"end\": " ++ json_str i.end_date ++
  ", \"evalscript_version\": " ++ json_str EVALSCRIPT_VERSION ++
  ", \"h\": " ++ Int.repr i.height ++
  ", \"mosaic\": " ++ json_str (mosaic_or_default i.mosaicking_order) ++
  ", \"start\": " ++ json_str i.start_date ++
  ", \"w\": " ++ Int.repr i.width ++ "\x7d"

/-- The truncated digest of line 500-502:
`hashlib.sha256(json.dumps(payload, sort_keys=True).encode()).hexdigest()[:16]`. -/
def cache_digest (i : CacheKeyInput) : List Char :=
  (sha256_hex_chars (str_bytes (canonical_payload_json i))).take 16

/-- `_cache_key` (backend/biopar_sentinelhub.py, lines 462-504): the cache
filename `biopar_{type.lower()}_{digest}.tif`. -/
def cache_key (i : CacheKeyInput) : String :=
  "biopar_" ++ ascii_lower i.biopar_type ++ "_" ++
    String.mk (cache_digest i) ++ ".tif"

/- ------------------------------------------------------------------ -/
/- Job tracker eviction scenario (claim C10)                          -/
/- ------------------------------------------------------------------ -/

/-- Create jobs with ids `0 .. n-1` in a fresh tracker with the given
history cap (the claim's "creating N jobs"). -/
def create_many (cap n : ℕ) : JobTracker :=
  (List.range n).foldl (fun tr i => create_job tr i "job" none) (mk_tracker cap)

/-- Complete jobs `0 .. n-1` in creation order (the claim's "driving all
of them to a terminal state", via `complete_job`). -/
def complete_all (n : ℕ) (tr : JobTracker) : Except String JobTracker :=
  (List.range n).foldl
    (fun acc i => acc.bind (fun tr => complete_job tr i false none)) (.ok tr)

/-- The job record `create_job` makes for id `i` at clock `i`. -/
def scenario_pending (i : ℕ) : JobProgress :=
  { job_id := i, job_type := "job", status := .pending, progress_pct := 0
    current_step := none, total_steps := none, completed_steps := 0
    message := none, result := false, error := none, created_at := i
    started_at := none, completed_at := none }

/-- The record of scenario job `i` after its completion at clock `n + i`. -/
def scenario_done (n i : ℕ) : JobProgress :=
  apply_complete (n + i) false none (scenario_pending i)

/-- The tracker state after creating jobs `0 .. n-1` and completing the
first `k` of them: the last `min k cap` completed jobs survive eviction,
the rest are still pending. -/
def scenario_state (cap n k : ℕ) : JobTracker :=
  { jobs := (List.range' (k - min k cap) (min k cap)).map (scenario_done n) ++
            (List.range' k (n - k)).map scenario_pending
    max_history := cap
    now := n + k }

/- ------------------------------------------------------------------ -/
/- Helper lemmas for the resolution selector                          -/
/- ------------------------------------------------------------------ -/

lemma axis_bound_final (size : ℚ) (px : ℤ) (h64 : 64 ≤ px)
    (hle : size ≤ 300 * px) : size / (px : ℚ) ≤ 300 := by
  have hpx : (0 : ℚ) < (px : ℚ) := by exact_mod_cast lt_of_lt_of_le (by norm_num) h64
  rw [div_le_iff₀ hpx]
  linarith [hle]

lemma core_bounds (w_m h_m : ℚ) (t : ℤ) :
    MIN_PIXELS ≤ (choose_resolution_core w_m h_m t).1 ∧
    (choose_resolution_core w_m h_m t).1 ≤ MAX_PIXELS ∧
    MIN_PIXELS ≤ (choose_resolution_core w_m h_m t).2 ∧
    (choose_resolution_core w_m h_m t).2 ≤ MAX_PIXELS ∧
    (w_m ≤ 1228800 → w_m / ((choose_resolution_core w_m h_m t).1 : ℚ) ≤ 300) ∧
    (h_m ≤ 1228800 → h_m / ((choose_resolution_core w_m h_m t).2 : ℚ) ≤ 300) := by
  rw [choose_resolution_core]
  simp only [BIOPAR_MIN_MPP, BIOPAR_MAX_MPP, MIN_PIXELS, MAX_PIXELS,
    show (((300 : ℤ)) : ℚ) = (300 : ℚ) from by norm_num]
  set mpp : ℤ := max 10 (min t 300) with hmpp
  set wpx : ℤ := max 64 (min 4096 ⌈w_m / (mpp : ℚ)⌉) with hwpx
  set hpx : ℤ := max 64 (min 4096 ⌈h_m / (mpp : ℚ)⌉) with hhpx
  have hw64 : 64 ≤ wpx := le_max_left _ _
  have hh64 : 64 ≤ hpx := le_max_left _ _
  have hw4096 : wpx ≤ 4096 := max_le (by norm_num) (min_le_left _ _)
  have hh4096 : hpx ≤ 4096 := max_le (by norm_num) (min_le_left _ _)
  by_cases hbr : (300 : ℚ) < max (w_m / (wpx : ℚ)) (h_m / (hpx : ℚ))
  · rw [if_pos hbr]
    refine ⟨le_trans hw64 (le_max_left _ _), ?_, le_trans hh64 (le_max_left _ _), ?_, ?_, ?_⟩
    · exact max_le hw4096 (min_le_left _ _)
    · exact max_le hh4096 (min_le_left _ _)
    · intro hWm
      have hceil : ⌈w_m / (300 : ℚ)⌉ ≤ 4096 := by
        rw [Int.ceil_le, div_le_iff₀ (by norm_num : (0:ℚ) < 300)]
        push_cast
        linarith
      have hmin : min (4096 : ℤ) ⌈w_m / (300 : ℚ)⌉ = ⌈w_m / (300 : ℚ)⌉ :=
        min_eq_right hceil
      set w : ℤ := max wpx (min 4096 ⌈w_m / (300 : ℚ)⌉) with hwdef
      have hcw : ⌈w_m / (300 : ℚ)⌉ ≤ w := by rw [hwdef, hmin]; exact le_max_right _ _
      have hq : w_m / 300 ≤ (w : ℚ) := le_trans (Int.le_ceil _) (by exact_mod_cast hcw)
      refine axis_bound_final w_m w (le_trans hw64 (le_max_left _ _)) ?_
      rw [div_le_iff₀ (by norm_num : (0:ℚ) < 300)] at hq
      linarith
    · intro hHm
      have hceil : ⌈h_m / (300 : ℚ)⌉ ≤ 4096 := by
        rw [Int.ceil_le, div_le_iff₀ (by norm_num : (0:ℚ) < 300)]
        push_cast
        linarith
      have hmin : min (4096 : ℤ) ⌈h_m / (300 : ℚ)⌉ = ⌈h_m / (300 : ℚ)⌉ :=
        min_eq_right hceil
      set w : ℤ := max hpx (min 4096 ⌈h_m / (300 : ℚ)⌉) with hwdef
      have hcw : ⌈h_m / (300 : ℚ)⌉ ≤ w := by rw [hwdef, hmin]; exact le_max_right _ _
      have hq : h_m / 300 ≤ (w : ℚ) := le_trans (Int.le_ceil _) (by exact_mod_cast hcw)
      refine axis_bound_final h_m w (le_trans hh64 (le_max_left _ _)) ?_
      rw [div_le_iff₀ (by norm_num : (0:ℚ) < 300)] at hq
      linarith
  · rw [if_neg hbr]
    push_neg at hbr
    refine ⟨hw64, hw4096, hh64, hh4096, fun _ => ?_, fun _ => ?_⟩
    · exact le_trans (le_max_left _ (h_m / (hpx : ℚ))) hbr
    · exact le_trans (le_max_right (w_m / (wpx : ℚ)) _) hbr

/- ------------------------------------------------------------------ -/
/- Claim C3: resolution selector bounds                               -/
/- ------------------------------------------------------------------ -/

/-- C3 counterexample: for the 20-degree-square bbox `[0, -10, 20, 10]`
(equator, so `cos(lat_mid) = 1` exactly), `_choose_resolution_for_biopar`
with the default 60 m/px target returns 4096x4096 pixels, whose implied
effective resolution `2226400 m / 4096 px` exceeds `BIOPAR_MAX_MPP = 300`
by far (543.5 m/px), refuting the claimed meters-per-pixel bound on the
claimed 0.001-to-20-degree range. -/
theorem C3_resolution_mpp_counterexample :
    choose_resolution_for_biopar [0, -10, 20, 10] 1 60 = (4096, 4096) ∧
    (BIOPAR_MAX_MPP : ℚ) <
      (approx_bbox_size_meters [0, -10, 20, 10] 1).1 /
        (((choose_resolution_for_biopar [0, -10, 20, 10] 1 60).1 : ℤ) : ℚ) := by
  have h : choose_resolution_for_biopar [0, -10, 20, 10] 1 60 = (4096, 4096) := by
    have h1 : ⌈(111320 : ℚ) / 3⌉ = 37107 := by norm_num [Int.ceil_eq_iff]
    have h2 : ⌈(22264 : ℚ) / 3⌉ = 7422 := by norm_num [Int.ceil_eq_iff]
    norm_num [choose_resolution_for_biopar, approx_bbox_size_meters,
      choose_resolution_core, BIOPAR_MIN_MPP, BIOPAR_MAX_MPP, MIN_PIXELS,
      MAX_PIXELS, h1, h2]
  refine ⟨h, ?_⟩
  rw [h]
  norm_num [approx_bbox_size_meters, BIOPAR_MAX_MPP]

/-- C3 (amended): for every bbox and target, the selector returns pixel
counts within `[MIN_PIXELS, MAX_PIXELS]` in both dimensions; the implied
effective meters-per-pixel respects `BIOPAR_MAX_MPP` on an axis whenever
that axis's physical size is at most `MAX_PIXELS * BIOPAR_MAX_MPP`
(= 1228800 m, about an 11-degree span) — beyond that the pixel count caps
at `MAX_PIXELS` and the effective resolution exceeds the maximum. -/
theorem C3_resolution_bounds (bbox : List ℚ) (cosLatMid : ℚ) (t : ℤ) :
    (MIN_PIXELS ≤ (choose_resolution_for_biopar bbox cosLatMid t).1 ∧
     (choose_resolution_for_biopar bbox cosLatMid t).1 ≤ MAX_PIXELS ∧
     MIN_PIXELS ≤ (choose_resolution_for_biopar bbox cosLatMid t).2 ∧
     (choose_resolution_for_biopar bbox cosLatMid t).2 ≤ MAX_PIXELS) ∧
    ((approx_bbox_size_meters bbox cosLatMid).1 ≤ ((MAX_PIXELS * BIOPAR_MAX_MPP : ℤ) : ℚ) →
      (approx_bbox_size_meters bbox cosLatMid).1 /
        ((choose_resolution_for_biopar bbox cosLatMid t).1 : ℚ) ≤ (BIOPAR_MAX_MPP : ℚ)) ∧
    ((approx_bbox_size_meters bbox cosLatMid).2 ≤ ((MAX_PIXELS * BIOPAR_MAX_MPP : ℤ) : ℚ) →
      (approx_bbox_size_meters bbox cosLatMid).2 /
        ((choose_resolution_for_biopar bbox cosLatMid t).2 : ℚ) ≤ (BIOPAR_MAX_MPP : ℚ)) := by
  have h := core_bounds (approx_bbox_size_meters bbox cosLatMid).1
    (approx_bbox_size_meters bbox cosLatMid).2 t
  have hunf : choose_resolution_for_biopar bbox cosLatMid t =
      choose_resolution_core (approx_bbox_size_meters bbox cosLatMid).1
        (approx_bbox_size_meters bbox cosLatMid).2 t := rfl
  rw [hunf]
  have hconst : ((MAX_PIXELS * BIOPAR_MAX_MPP : ℤ) : ℚ) = 1228800 := by
    norm_num [MAX_PIXELS, BIOPAR_MAX_MPP]
  have hconst2 : (BIOPAR_MAX_MPP : ℚ) = 300 := by norm_num [BIOPAR_MAX_MPP]
  rw [hconst, hconst2]
  exact ⟨⟨h.1, h.2.1, h.2.2.1, h.2.2.2.1⟩, h.2.2.2.2.1, h.2.2.2.2.2⟩

/-- Witness for C3_resolution_bounds at the spec's 0.01-degree scenario
bbox `[69, 51, 69.01, 51.01]` (cosine of mid-latitude taken as 1). -/
theorem C3_resolution_bounds_witness :
    MIN_PIXELS ≤ (choose_resolution_for_biopar [69, 51, 6901/100, 5101/100] 1 60).1 ∧
    (approx_bbox_size_meters [69, 51, 6901/100, 5101/100] 1).1 /
      ((choose_resolution_for_biopar [69, 51, 6901/100, 5101/100] 1 60).1 : ℚ) ≤
      (BIOPAR_MAX_MPP : ℚ) :=
  ⟨(C3_resolution_bounds [69, 51, 6901/100, 5101/100] 1 60).1.1,
   (C3_resolution_bounds [69, 51, 6901/100, 5101/100] 1 60).2.1 (by
     norm_num [approx_bbox_size_meters, MAX_PIXELS, BIOPAR_MAX_MPP])⟩

/- ------------------------------------------------------------------ -/
/- Claim C7: trend sentinel for sparse timelines                      -/
/- ------------------------------------------------------------------ -/

/-- C7: for every timeline with at most two non-null observations (so
exactly 0, 1 or 2), the trend computation returns exactly the sentinel
`direction="insufficient_data"`, `slope=0.0`, `r_squared=0.0`,
`p_value=1.0`, for any p-value backend and any stability epsilon. -/
theorem C7_trend_sentinel (pv : List ℚ → List ℚ → ℚ) (eps : ℚ)
    (timeline : List (Option ℚ))
    (h : (non_null_points timeline).length ≤ 2) :
    compute_trend pv eps timeline =
      { direction := "insufficient_data", slope := 0, r_squared := 0, p_value := 1 } := by
  simp only [compute_trend, List.length_map]
  rw [if_neg (by omega)]

/-- Witness for C7_trend_sentinel on a three-window timeline with two
non-null observations. -/
theorem C7_trend_sentinel_witness :
    compute_trend (fun _ _ => 0) (1/10000) [some (3/10), none, some (32/100)] =
      { direction := "insufficient_data", slope := 0, r_squared := 0, p_value := 1 } :=
  C7_trend_sentinel (fun _ _ => 0) (1/10000) [some (3/10), none, some (32/100)]
    (by decide)

/- ------------------------------------------------------------------ -/
/- Claim C5: Retry-After handling on HTTP 429                         -/
/- ------------------------------------------------------------------ -/

/-- C5: evaluating the 429 branch of `fetch_biopar_geotiff` at the
claim's scenario (HTTP 429 carrying `Retry-After: 5`, first attempt of a
budget of 2, `retry_delay = 5`): the code sleeps
`int("5") / 1000 = 0.005` seconds — under one second — not the ~5 seconds
the header requests, because the header value is treated as milliseconds. -/
theorem C5_retry_after_unit_bug :
    handle_attempt 2 5 0
      { statusCode := 429, retryAfterHeader := some 5, text := "", content := [] }
      = .retryAfterSleep (1/200) ∧ (1/200 : ℚ) < 1 := by
  refine ⟨?_, by norm_num⟩
  simp only [handle_attempt, retry_after_ms]
  norm_num

/- ------------------------------------------------------------------ -/
/- Claims C4 and C6: gateway retry behaviour                          -/
/- ------------------------------------------------------------------ -/

/-- If every attempt up to the budget would sleep-and-retry and the final
attempt raises `e`, the loop makes all `max_retries + 1` attempts and
surfaces `e`. -/
lemma run_fetch_aux_uniform (mr : ℕ) (rd : ℤ) (rs : ℕ → UpstreamResponse)
    (e : FetchErr) (slp : ℚ)
    (h : ∀ i, i ≤ mr → handle_attempt mr rd i (rs i) =
      if i < mr then .retryAfterSleep slp else .raiseErr e) :
    ∀ left attempt, left + attempt = mr + 1 → 1 ≤ left →
      run_fetch_aux mr rd rs left attempt = (.error e, mr + 1) := by
  intro left
  induction left with
  | zero => intro attempt _ h1; omega
  | succ l ih =>
    intro attempt hsum _
    have hatt : attempt ≤ mr := by omega
    simp only [run_fetch_aux]
    rw [h attempt hatt]
    by_cases hlt : attempt < mr
    · rw [if_pos hlt]
      exact ih (attempt + 1) (by omega) (by omega)
    · rw [if_neg hlt]
      have heq : attempt = mr := by omega
      simp [heq]

/-- C4: an HTTP 400 response is raised on the very first attempt — the
loop returns after exactly one attempt with no retry, with the no-data
error exactly when the body carries a no-data phrase — and both 400-body
classifiers (Processing and Statistical API) classify the body
`"No data found for the requested period"` as no-data. -/
theorem C4_http400_never_retried (mr : ℕ) (rd : ℤ)
    (rs : ℕ → UpstreamResponse) (h400 : (rs 0).statusCode = 400) :
    run_fetch mr rd rs =
      (.error (if has_no_data_phrase (rs 0).text then FetchErr.noData
               else FetchErr.sentinelHub), 1) ∧
    has_no_data_phrase "No data found for the requested period" = true ∧
    stat_has_no_data_phrase "No data found for the requested period" = true := by
  refine ⟨?_, by decide, by decide⟩
  have hh : handle_attempt mr rd 0 (rs 0) =
      .raiseErr (if has_no_data_phrase (rs 0).text then FetchErr.noData
                 else FetchErr.sentinelHub) := by
    simp only [handle_attempt, h400, if_pos]
    by_cases hp : has_no_data_phrase (rs 0).text <;> simp [hp]
  simp only [run_fetch, run_fetch_aux, hh]

/-- Witness for C4_http400_never_retried: a concrete 400 response whose
body is the claim's scenario text. -/
theorem C4_http400_witness :
    run_fetch 2 5 (fun _ =>
      { statusCode := 400, retryAfterHeader := none,
        text := "No data found for the requested period", content := [] }) =
      (.error FetchErr.noData, 1) := by
  have h := (C4_http400_never_retried 2 5 (fun _ =>
    { statusCode := 400, retryAfterHeader := none,
      text := "No data found for the requested period", content := [] }) rfl).1
  rw [h]
  norm_num [show has_no_data_phrase "No data found for the requested period" = true from by decide]

/-- C6 counterexample: a successful-status response of valid size whose
leading bytes are not a TIFF magic number is retried to exhaustion and
then surfaced as `SentinelHubError` ("Received invalid TIFF data"), not
as the no-data error the claim asserts. -/
theorem C6_bad_magic_counterexample :
    run_fetch 2 5 (fun _ =>
      { statusCode := 200, retryAfterHeader := none, text := "",
        content := List.replicate 1000 5 }) =
      (.error FetchErr.sentinelHub, 3) ∧
    FetchErr.sentinelHub ≠ FetchErr.noData := by
  refine ⟨?_, by decide⟩
  refine run_fetch_aux_uniform 2 5 _ .sentinelHub ((5 : ℤ) : ℚ) ?_ 3 0
    (by omega) (by omega)
  intro i hi
  have hm1 : ¬ (List.replicate 4 (5 : ℕ) = [73, 73, 42, 0]) := by decide
  have hm2 : ¬ (List.replicate 4 (5 : ℕ) = [77, 77, 0, 42]) := by decide
  simp only [handle_attempt, MIN_VALID_SIZE, is_tiff_magic, List.length_replicate]
  norm_num [List.take_replicate, hm1, hm2]

/-- C6 (amended): a successful-status response below `MIN_VALID_SIZE`
bytes is retried up to the budget and then surfaced as a no-data error;
a successful-status response of valid size whose leading bytes fail the
TIFF magic-number check is retried up to the budget and then surfaced as
the generic `SentinelHubError` (not no-data).  In both cases all
`max_retries + 1` attempts are made. -/
theorem C6_response_validation (mr : ℕ) (rd : ℤ) (rs : ℕ → UpstreamResponse) :
    ((∀ i, (rs i).statusCode = 200 ∧ (rs i).content.length < MIN_VALID_SIZE) →
      run_fetch mr rd rs = (.error FetchErr.noData, mr + 1)) ∧
    ((∀ i, (rs i).statusCode = 200 ∧ MIN_VALID_SIZE ≤ (rs i).content.length ∧
        is_tiff_magic (rs i).content = false) →
      run_fetch mr rd rs = (.error FetchErr.sentinelHub, mr + 1)) := by
  constructor
  · intro hyp
    refine run_fetch_aux_uniform mr rd rs .noData (rd : ℚ) ?_ (mr + 1) 0
      (by omega) (by omega)
    intro i hi
    have h1 := (hyp i).1
    have h2 := (hyp i).2
    simp only [handle_attempt, h1, h2]
    norm_num
  · intro hyp
    refine run_fetch_aux_uniform mr rd rs .sentinelHub (rd : ℚ) ?_ (mr + 1) 0
      (by omega) (by omega)
    intro i hi
    have h1 := (hyp i).1
    have h2 := (hyp i).2.1
    have h3 := (hyp i).2.2
    have hnotlt : ¬ ((rs i).content.length < MIN_VALID_SIZE) := by omega
    simp only [handle_attempt, h1, h3, hnotlt]
    norm_num

/-- Witness for C6_response_validation: three undersized 200-responses
exhaust a budget of 2 and surface no-data. -/
theorem C6_response_validation_witness :
    run_fetch 2 5 (fun _ =>
      { statusCode := 200, retryAfterHeader := none, text := "",
        content := [1, 2, 3] }) = (.error FetchErr.noData, 3) :=
  (C6_response_validation 2 5 (fun _ =>
    { statusCode := 200, retryAfterHeader := none, text := "",
      content := [1, 2, 3] })).1 (fun _ => ⟨rfl, by decide⟩)

/- ------------------------------------------------------------------ -/
/- Claim C2: atomic cache write never exposes a partial artifact      -/
/- ------------------------------------------------------------------ -/

/-- C2: throughout any run of `atomic_write_cache` — successful or failed
at any point (mid-write with any byte prefix on disk, at fsync, or before
the rename) — every observable state has the final path either unchanged
from before the write or holding the complete new content, never a
truncated intermediate; a successful run ends with the full content
installed and the temp file gone; a failed run ends with the target
unchanged and the temp file removed. -/
theorem C2_atomic_write_integrity (s0 : CacheFsState) (content : List ℕ)
    (failure : Option WriteFailure) :
    (∀ s ∈ write_atomic_steps s0 content failure,
        s.finalFile = s0.finalFile ∨ s.finalFile = some content) ∧
    ((atomic_write_cache s0 content failure).2 = true →
        (atomic_write_cache s0 content failure).1
          = { finalFile := some content, tmpFile := none }) ∧
    ((atomic_write_cache s0 content failure).2 = false →
        (atomic_write_cache s0 content failure).1
          = { finalFile := s0.finalFile, tmpFile := none }) := by
  refine ⟨?_, ?_, ?_⟩
  · intro s hs
    rcases failure with _ | f
    · fin_cases hs <;> simp
    · cases f <;> fin_cases hs <;> simp
  · intro hok
    rcases failure with _ | f
    · simp [atomic_write_cache, write_atomic_steps]
    · simp [atomic_write_cache] at hok
  · intro hfail
    rcases failure with _ | f
    · simp [atomic_write_cache] at hfail
    · cases f <;> simp [atomic_write_cache, write_atomic_steps]

/-- Witness for C2_atomic_write_integrity: a write of `[2, 3]` over an
existing artifact `[1]` that dies mid-write with one byte in the temp file
leaves the old artifact intact and no temp file. -/
theorem C2_atomic_write_witness :
    (atomic_write_cache { finalFile := some [1], tmpFile := none } [2, 3]
        (some (.duringWrite 1))).1
      = { finalFile := some [1], tmpFile := none } ∧
    ({ finalFile := some [1], tmpFile := some [2] } : CacheFsState).finalFile
        = some [1] ∨
    ({ finalFile := some [1], tmpFile := some [2] } : CacheFsState).finalFile
        = some [2, 3] :=
  Or.inl ⟨(C2_atomic_write_integrity { finalFile := some [1], tmpFile := none }
      [2, 3] (some (.duringWrite 1))).2.2 rfl,
    by
      have h := (C2_atomic_write_integrity { finalFile := some [1], tmpFile := none }
        [2, 3] (some (.duringWrite 1))).1
        { finalFile := some [1], tmpFile := some [2] } (by decide)
      rcases h with h | h
      · exact h
      · exact absurd h (by decide)⟩

/- ------------------------------------------------------------------ -/
/- Claim C1: cache-key determinism and format                         -/
/- ------------------------------------------------------------------ -/

lemma foldl_len8 (F : List ℕ → ℕ → List ℕ) (hF : ∀ s i, (F s i).length = 8) :
    ∀ (l : List ℕ) (s : List ℕ), s.length = 8 → (l.foldl F s).length = 8 := by
  intro l
  induction l with
  | nil => intro s hs; simpa using hs
  | cons x xs ih => intro s _; exact ih (F s x) (hF s x)

lemma compress_round_len (k w : ℕ) (s : List ℕ) :
    (compress_round k w s).length = 8 := rfl

lemma compress_chunk_len (h c : List ℕ) (hh : h.length = 8) :
    (compress_chunk h c).length = 8 := by
  rw [compress_chunk]
  rw [List.length_zipWith]
  rw [foldl_len8 _ (fun s i => compress_round_len _ _ s) _ _ hh, hh]
  omega

lemma sha_state_len (chunks : List (List ℕ)) :
    ∀ h : List ℕ, h.length = 8 → (chunks.foldl compress_chunk h).length = 8 := by
  induction chunks with
  | nil => intro h hh; simpa using hh
  | cons c cs ih => intro h hh; exact ih _ (compress_chunk_len h c hh)

lemma to_bytes_be_len (n v : ℕ) : (to_bytes_be n v).length = n := by
  simp [to_bytes_be]

lemma flat_bytes_len (l : List ℕ) :
    ((l.map (to_bytes_be 4)).flatten).length = 4 * l.length := by
  induction l with
  | nil => simp
  | cons x xs ih => simp [ih, to_bytes_be_len]; ring

lemma sha256_bytes_len (msg : List ℕ) : (sha256_bytes msg).length = 32 := by
  rw [sha256_bytes]
  rw [flat_bytes_len, sha_state_len _ shaH0 rfl]

lemma flat_hex_len (l : List ℕ) :
    ((l.map byte_hex).flatten).length = 2 * l.length := by
  induction l with
  | nil => simp
  | cons x xs ih => simp [ih, byte_hex]; ring

lemma sha256_hex_chars_len (msg : List ℕ) : (sha256_hex_chars msg).length = 64 := by
  rw [sha256_hex_chars, flat_hex_len, sha256_bytes_len]

lemma hex_digit_mem (n : ℕ) : hex_digit n ∈ ("0123456789abcdef").data := by
  by_cases h : n < 16
  · interval_cases n <;> decide
  · rw [hex_digit, List.getD_eq_default]
    · decide
    · have hl : ("0123456789abcdef").data.length = 16 := by decide
      omega

lemma sha256_hex_chars_mem (msg : List ℕ) :
    ∀ c ∈ sha256_hex_chars msg, c ∈ ("0123456789abcdef").data := by
  intro c hc
  rw [sha256_hex_chars] at hc
  rcases List.mem_flatten.mp hc with ⟨l, hl, hcl⟩
  rcases List.mem_map.mp hl with ⟨b, _, rfl⟩
  rcases hcl with _ | ⟨_, hcl2⟩
  · exact hex_digit_mem _
  · rcases hcl2 with _ | ⟨_, h3⟩
    · exact hex_digit_mem _
    · cases h3

/-- C1 counterexample: two distinct `_cache_key` inputs — identical but
for the mosaicking order, `None` in one and `"default"` in the other —
produce the same cache key, because line 495 maps both to the payload
entry `"default"`.  So "changing any one input field changes the key"
fails. -/
theorem C1_cache_key_collision :
    ({ bbox := [69, 51, 73, 53], start_date := "2024-06-01",
       end_date := "2024-06-30", width := 2048, height := 2048,
       max_cloud_coverage := 30, mosaicking_order := none,
       biopar_type := "FAPAR" } : CacheKeyInput) ≠
    ({ bbox := [69, 51, 73, 53], start_date := "2024-06-01",
       end_date := "2024-06-30", width := 2048, height := 2048,
       max_cloud_coverage := 30, mosaicking_order := some "default",
       biopar_type := "FAPAR" } : CacheKeyInput) ∧
    cache_key
      { bbox := [69, 51, 73, 53], start_date := "2024-06-01",
        end_date := "2024-06-30", width := 2048, height := 2048,
        max_cloud_coverage := 30, mosaicking_order := none,
        biopar_type := "FAPAR" } =
    cache_key
      { bbox := [69, 51, 73, 53], start_date := "2024-06-01",
        end_date := "2024-06-30", width := 2048, height := 2048,
        max_cloud_coverage := 30, mosaicking_order := some "default",
        biopar_type := "FAPAR" } := by
  constructor
  · intro h
    simpa using congrArg CacheKeyInput.mosaicking_order h
  · have hp : mosaic_or_default none = mosaic_or_default (some "default") := by
      simp [mosaic_or_default]
    simp only [cache_key, cache_digest, canonical_payload_json, hp]

/-- C1 (amended): key derivation is a pure function, so identical inputs
give identical keys; coordinate lists that agree after rounding to six
decimal places give identical keys (jitter beyond the rounding precision
cannot change the key); and the digest embedded in the key is exactly 16
lower-case hex characters.  But distinct inputs do not always give
distinct keys (see the collision counterexample). -/
theorem C1_cache_key_determinism (i : CacheKeyInput) (b1 b2 : List ℚ)
    (hq : b1.map (round_dec 6) = b2.map (round_dec 6)) :
    cache_key { i with bbox := b1 } = cache_key { i with bbox := b2 } ∧
    (cache_digest i).length = 16 ∧
    ∀ c ∈ cache_digest i, c ∈ ("0123456789abcdef").data := by
  refine ⟨?_, ?_, ?_⟩
  · have hmaps : ∀ b : List ℚ,
        b.map (fun x => json_num (round_dec 6 x)) = (b.map (round_dec 6)).map json_num := by
      intro b
      rw [List.map_map]
      rfl
    have hp : canonical_payload_json { i with bbox := b1 } =
        canonical_payload_json { i with bbox := b2 } := by
      simp only [canonical_payload_json]
      rw [hmaps b1, hmaps b2, hq]
    simp only [cache_key, cache_digest, hp]
  · simp [cache_digest, List.length_take, sha256_hex_chars_len]
  · intro c hc
    exact sha256_hex_chars_mem _ c (List.mem_of_mem_take hc)

/-- Witness for C1_cache_key_determinism: coordinate 69.0000001 (jitter
in the seventh decimal) keys identically to coordinate 69. -/
theorem C1_cache_key_determinism_witness :
    cache_key
      { bbox := [690000001/10000000], start_date := "2024-06-01",
        end_date := "2024-06-30", width := 2048, height := 2048,
        max_cloud_coverage := 30, mosaicking_order := none,
        biopar_type := "FAPAR" } =
    cache_key
      { bbox := [69], start_date := "2024-06-01",
        end_date := "2024-06-30", width := 2048, height := 2048,
        max_cloud_coverage := 30, mosaicking_order := none,
        biopar_type := "FAPAR" } :=
  (C1_cache_key_determinism
    { bbox := [69], start_date := "2024-06-01", end_date := "2024-06-30",
      width := 2048, height := 2048, max_cloud_coverage := 30,
      mosaicking_order := none, biopar_type := "FAPAR" }
    [690000001/10000000] [69] (by
      have h1 : round_dec 6 ((690000001 : ℚ)/10000000) = round_dec 6 69 := by
        have e1 : ((690000001 : ℚ)/10000000) * ((10 ^ 6 : ℕ) : ℚ) = 690000001/10 := by
          norm_num
        have e2 : ((69 : ℚ)) * ((10 ^ 6 : ℕ) : ℚ) = 69000000 := by norm_num
        rw [round_dec, round_dec, e1, e2]
        have hf1 : roundHalfEven ((690000001 : ℚ)/10) = 69000000 := by
          have hfl : ⌊(690000001 : ℚ)/10⌋ = 69000000 := by
            rw [Int.floor_eq_iff]
            constructor <;> norm_num
          simp only [roundHalfEven, hfl]
          norm_num
        have hf2 : roundHalfEven ((69000000 : ℚ)) = 69000000 := by
          have hfl : ⌊(69000000 : ℚ)⌋ = 69000000 := by
            rw [Int.floor_eq_iff]
            constructor <;> norm_num
          simp only [roundHalfEven, hfl]
          norm_num
        rw [hf1, hf2]
      simp [h1])).1

/- ------------------------------------------------------------------ -/
/- Claim C8: classification totality                                  -/
/- ------------------------------------------------------------------ -/

lemma chain_count (v a b c d : ℚ) (hab : a ≤ b) (hbc : b ≤ c) (hcd : c ≤ d) :
    (if v < a then "very_low" else if v < b then "low"
     else if v < c then "moderate" else if v < d then "optimal" else "high")
    = biopar_bins.getD (([a, b, c, d].countP (fun x => decide (x ≤ v)))) "" := by
  by_cases h1 : v < a
  · have n1 : ¬ a ≤ v := not_le.mpr h1
    have n2 : ¬ b ≤ v := fun h => n1 (hab.trans h)
    have n3 : ¬ c ≤ v := fun h => n1 ((hab.trans hbc).trans h)
    have n4 : ¬ d ≤ v := fun h => n1 (((hab.trans hbc).trans hcd).trans h)
    simp [h1, List.countP_cons, n1, n2, n3, n4, biopar_bins]
  · by_cases h2 : v < b
    · have p1 : a ≤ v := not_lt.mp h1
      have n2 : ¬ b ≤ v := not_le.mpr h2
      have n3 : ¬ c ≤ v := fun h => n2 (hbc.trans h)
      have n4 : ¬ d ≤ v := fun h => n2 ((hbc.trans hcd).trans h)
      simp [h1, h2, List.countP_cons, p1, n2, n3, n4, biopar_bins]
    · by_cases h3 : v < c
      · have p2 : b ≤ v := not_lt.mp h2
        have p1 : a ≤ v := hab.trans p2
        have n3 : ¬ c ≤ v := not_le.mpr h3
        have n4 : ¬ d ≤ v := fun h => n3 (hcd.trans h)
        simp [h1, h2, h3, List.countP_cons, p1, p2, n3, n4, biopar_bins]
      · by_cases h4 : v < d
        · have p3 : c ≤ v := not_lt.mp h3
          have p2 : b ≤ v := hbc.trans p3
          have p1 : a ≤ v := hab.trans p2
          have n4 : ¬ d ≤ v := not_le.mpr h4
          simp [h1, h2, h3, h4, List.countP_cons, p1, p2, p3, n4, biopar_bins]
        · have p4 : d ≤ v := not_lt.mp h4
          have p3 : c ≤ v := hcd.trans p4
          have p2 : b ≤ v := hbc.trans p3
          have p1 : a ≤ v := hab.trans p2
          simp [h1, h2, h3, h4, List.countP_cons, p1, p2, p3, p4, biopar_bins]

/-- C8: for each of the five supported indicator types and every finite
mean value — including values outside the nominal documented range — the
classifier agrees with lookup in the fixed ascending threshold table
(whose bins partition the rationals: the bin index is the number of cut
points at or below the value), and always lands in exactly one of the
five status bins; being a total Lean function, it raises nothing. -/
theorem C8_classification_total (t : String)
    (ht : t ∈ ["FAPAR", "LAI", "FCOVER", "CCC", "CWC"]) (v : ℚ) :
    classify_biopar_status t (some v)
      = biopar_bins.getD ((spec_threshold_table t).countP (fun x => decide (x ≤ v))) "" ∧
    classify_biopar_status t (some v) ∈ biopar_bins := by
  have hmem : ∀ n : ℕ, n ≤ 4 → biopar_bins.getD n "" ∈ biopar_bins := by
    intro n hn
    interval_cases n <;> decide
  fin_cases ht
  · have hchar : classify_biopar_status "FAPAR" (some v) =
        biopar_bins.getD ((([1/10, 1/4, 1/2, 7/10] : List ℚ).countP
          (fun x => decide (x ≤ v)))) "" := by
      rw [show classify_biopar_status "FAPAR" (some v) =
          (if v < 1/10 then "very_low" else if v < 1/4 then "low"
           else if v < 1/2 then "moderate" else if v < 7/10 then "optimal"
           else "high") from by
        simp [classify_biopar_status, show ascii_upper "FAPAR" = "FAPAR" from by decide]]
      exact chain_count v _ _ _ _ (by norm_num) (by norm_num) (by norm_num)
    refine ⟨by rw [show spec_threshold_table "FAPAR" = [1/10, 1/4, 1/2, 7/10] from by
        simp [spec_threshold_table]]; exact hchar, ?_⟩
    rw [hchar]
    exact hmem _ (le_trans (List.countP_le_length _) (by norm_num))
  · have hchar : classify_biopar_status "LAI" (some v) =
        biopar_bins.getD ((([1/2, 3/2, 3, 5] : List ℚ).countP
          (fun x => decide (x ≤ v)))) "" := by
      rw [show classify_biopar_status "LAI" (some v) =
          (if v < 1/2 then "very_low" else if v < 3/2 then "low"
           else if v < 3 then "moderate" else if v < 5 then "optimal"
           else "high") from by
        simp [classify_biopar_status, show ascii_upper "LAI" = "LAI" from by decide]]
      exact chain_count v _ _ _ _ (by norm_num) (by norm_num) (by norm_num)
    refine ⟨by rw [show spec_threshold_table "LAI" = [1/2, 3/2, 3, 5] from by
        simp [spec_threshold_table]]; exact hchar, ?_⟩
    rw [hchar]
    exact hmem _ (le_trans (List.countP_le_length _) (by norm_num))
  · have hchar : classify_biopar_status "FCOVER" (some v) =
        biopar_bins.getD ((([1/5, 2/5, 3/5, 4/5] : List ℚ).countP
          (fun x => decide (x ≤ v)))) "" := by
      rw [show classify_biopar_status "FCOVER" (some v) =
          (if v < 1/5 then "very_low" else if v < 2/5 then "low"
           else if v < 3/5 then "moderate" else if v < 4/5 then "optimal"
           else "high") from by
        simp [classify_biopar_status, show ascii_upper "FCOVER" = "FCOVER" from by decide]]
      exact chain_count v _ _ _ _ (by norm_num) (by norm_num) (by norm_num)
    refine ⟨by rw [show spec_threshold_table "FCOVER" = [1/5, 2/5, 3/5, 4/5] from by
        simp [spec_threshold_table]]; exact hchar, ?_⟩
    rw [hchar]
    exact hmem _ (le_trans (List.countP_le_length _) (by norm_num))
  · have hchar : classify_biopar_status "CCC" (some v) =
        biopar_bins.getD ((([50, 100, 200, 300] : List ℚ).countP
          (fun x => decide (x ≤ v)))) "" := by
      rw [show classify_biopar_status "CCC" (some v) =
          (if v < 50 then "very_low" else if v < 100 then "low"
           else if v < 200 then "moderate" else if v < 300 then "optimal"
           else "high") from by
        simp [classify_biopar_status, show ascii_upper "CCC" = "CCC" from by decide]]
      exact chain_count v _ _ _ _ (by norm_num) (by norm_num) (by norm_num)
    refine ⟨by rw [show spec_threshold_table "CCC" = [50, 100, 200, 300] from by
        simp [spec_threshold_table]]; exact hchar, ?_⟩
    rw [hchar]
    exact hmem _ (le_trans (List.countP_le_length _) (by norm_num))
  · have hchar : classify_biopar_status "CWC" (some v) =
        biopar_bins.getD ((([100, 200, 400, 600] : List ℚ).countP
          (fun x => decide (x ≤ v)))) "" := by
      rw [show classify_biopar_status "CWC" (some v) =
          (if v < 100 then "very_low" else if v < 200 then "low"
           else if v < 400 then "moderate" else if v < 600 then "optimal"
           else "high") from by
        simp [classify_biopar_status, show ascii_upper "CWC" = "CWC" from by decide]]
      exact chain_count v _ _ _ _ (by norm_num) (by norm_num) (by norm_num)
    refine ⟨by rw [show spec_threshold_table "CWC" = [100, 200, 400, 600] from by
        simp [spec_threshold_table]]; exact hchar, ?_⟩
    rw [hchar]
    exact hmem _ (le_trans (List.countP_le_length _) (by norm_num))

/-- Witness for C8_classification_total: an out-of-nominal-range FAPAR
mean of 3.5 (nominal range [0, 1]) still lands in a status bin. -/
theorem C8_classification_total_witness :
    classify_biopar_status "FAPAR" (some (7/2)) ∈ biopar_bins :=
  (C8_classification_total "FAPAR" (by simp) (7/2)).2

/- ------------------------------------------------------------------ -/
/- Claim C9: job state machine                                        -/
/- ------------------------------------------------------------------ -/

lemma apply_progress_update_keeps (p : Option ℚ) (c m : Option String)
    (inc : Bool) (j : JobProgress) :
    ((apply_progress_update p c m inc j).job_id,
     (apply_progress_update p c m inc j).status) = (j.job_id, j.status) := by
  rcases p with _ | p <;> rcases c with _ | c <;> rcases m with _ | m <;>
    rcases inc with _ | _ <;>
    simp only [apply_progress_update] <;>
    rcases h : j.total_steps with _ | ts <;> simp [h] <;> split_ifs <;>
    exact ⟨rfl, rfl⟩

lemma map_job_keeps_status (id : ℕ) (f : JobProgress → JobProgress)
    (hf : ∀ j, ((f j).job_id, (f j).status) = (j.job_id, j.status)) :
    ∀ jobs : List JobProgress,
      (map_job id f jobs).map (fun j => (j.job_id, j.status)) =
        jobs.map (fun j => (j.job_id, j.status)) := by
  intro jobs
  induction jobs with
  | nil => rfl
  | cons j js ih =>
    simp only [map_job, List.map_cons] at ih ⊢
    by_cases h : j.job_id = id <;> simp [h, hf j, ih]

lemma find_map_job (id : ℕ) (f : JobProgress → JobProgress)
    (hf : ∀ j, (f j).job_id = j.job_id) :
    ∀ jobs : List JobProgress,
      (map_job id f jobs).find? (fun j => j.job_id = id) =
        (jobs.find? (fun j => j.job_id = id)).map f := by
  intro jobs
  induction jobs with
  | nil => rfl
  | cons j js ih =>
    simp only [map_job, List.map_cons, List.find?_cons] at ih ⊢
    by_cases h : j.job_id = id
    · simp [h, hf j]
    · simp [h, hf j, ih, map_job]

/-- C9 counterexample: `create; complete; start` moves a job out of the
terminal COMPLETED state back to RUNNING — `start_job` sets RUNNING
unconditionally (line 132), so a terminal state can be exited. -/
theorem C9_terminal_escape_counterexample :
    (complete_job (create_job (mk_tracker 1000) 0 "biopar" none) 0 false
        none).map (fun tr => (find_job tr 0).map JobProgress.status)
      = .ok (some (.completed)) ∧
    ((complete_job (create_job (mk_tracker 1000) 0 "biopar" none) 0 false
        none).bind (fun tr => start_job tr 0 none)).map
          (fun tr => (find_job tr 0).map JobProgress.status)
      = .ok (some (.running)) := by
  constructor <;> rfl

/-- C9 (amended): `update_progress` never changes any job's status (it is
accepted, not an error, on a terminal job, and mutates only progress
fields); but the terminal states are not absorbing: `start_job` on any
existing job — terminal included — succeeds and sets RUNNING. -/
theorem C9_terminal_not_absorbing (tr : JobTracker) (id : ℕ)
    (p : Option ℚ) (c m : Option String) (inc : Bool) :
    (∀ tr', update_progress tr id p c m inc = .ok tr' →
      tr'.jobs.map (fun j => (j.job_id, j.status)) =
        tr.jobs.map (fun j => (j.job_id, j.status))) ∧
    (job_exists tr id = true →
      ∃ tr', start_job tr id none = .ok tr' ∧
        (find_job tr' id).map JobProgress.status = (find_job tr id).map
          (fun _ => JStatus.running)) := by
  constructor
  · intro tr' h
    rw [update_progress] at h
    by_cases hex : job_exists tr id = false
    · rw [if_pos hex] at h
      cases h
    · rw [if_neg hex] at h
      cases h
      exact map_job_keeps_status id _ (apply_progress_update_keeps p c m inc) tr.jobs
  · intro hex
    rw [start_job]
    rw [if_neg (by rw [hex]; simp)]
    refine ⟨_, rfl, ?_⟩
    show ((map_job id (apply_start tr.now none) tr.jobs).find?
      (fun j => j.job_id = id)).map JobProgress.status = _
    rw [find_map_job id (apply_start tr.now none) (fun j => rfl) tr.jobs]
    rcases hfind : tr.jobs.find? (fun j => j.job_id = id) with _ | j
    · have : job_exists tr id = false := by
        rw [job_exists]
        rw [List.any_eq_false]
        intro j hj
        have := List.find?_eq_none.mp hfind j hj
        simpa using this
      rw [this] at hex
      cases hex
    · simp [find_job, hfind, apply_start]

/-- Witness for C9_terminal_not_absorbing on a tracker holding one
cancelled (terminal) job: `start_job` succeeds and yields RUNNING. -/
theorem C9_terminal_not_absorbing_witness :
    ∃ tr', start_job
      { jobs := [{ job_id := 0, job_type := "biopar", status := .cancelled,
                   progress_pct := 0, current_step := none, total_steps := none,
                   completed_steps := 0, message := none, result := false,
                   error := none, created_at := 0, started_at := none,
                   completed_at := some 1 }],
        max_history := 1000, now := 2 } 0 none = .ok tr' ∧
      (find_job tr' 0).map JobProgress.status =
        (find_job
          { jobs := [{ job_id := 0, job_type := "biopar", status := .cancelled,
                       progress_pct := 0, current_step := none, total_steps := none,
                       completed_steps := 0, message := none, result := false,
                       error := none, created_at := 0, started_at := none,
                       completed_at := some 1 }],
            max_history := 1000, now := 2 } 0).map (fun _ => JStatus.running) :=
  (C9_terminal_not_absorbing
    { jobs := [{ job_id := 0, job_type := "biopar", status := .cancelled,
                 progress_pct := 0, current_step := none, total_steps := none,
                 completed_steps := 0, message := none, result := false,
                 error := none, created_at := 0, started_at := none,
                 completed_at := some 1 }],
      max_history := 1000, now := 2 } 0 none none none false).2 rfl

/- ------------------------------------------------------------------ -/
/- Claims C9 helper continuation and C10: eviction bound              -/
/- ------------------------------------------------------------------ -/

lemma range'_succ_one (s n : ℕ) :
    List.range' s (n+1) = s :: List.range' (s+1) n := by
  simpa using List.range'_succ s n 1

lemma range'_concat_one (s n : ℕ) :
    List.range' s (n+1) = List.range' s n ++ [s+n] := by
  induction n generalizing s with
  | zero => simp
  | succ n ih =>
    rw [range'_succ_one s (n+1), ih (s+1), range'_succ_one s n]
    have h : s + 1 + n = s + (n + 1) := by omega
    simp [h]

lemma map_job_absent (id : ℕ) (f : JobProgress → JobProgress) :
    ∀ jobs : List JobProgress, (∀ j ∈ jobs, j.job_id ≠ id) →
      map_job id f jobs = jobs := by
  intro jobs h
  induction jobs with
  | nil => rfl
  | cons j js ih =>
    simp only [map_job, List.map_cons]
    rw [if_neg (h j (by simp))]
    have := ih (fun x hx => h x (by simp [hx]))
    simp only [map_job] at this
    rw [this]

lemma mem_insert_sorted (key : JobProgress → ℕ) (x : JobProgress) :
    ∀ (l : List JobProgress) (y : JobProgress),
      y ∈ sort_on.insert_sorted key x l → y = x ∨ y ∈ l := by
  intro l
  induction l with
  | nil => intro y hy; simpa [sort_on.insert_sorted] using hy
  | cons z zs ih =>
    intro y hy
    simp only [sort_on.insert_sorted] at hy
    by_cases h : key x ≤ key z
    · rw [if_pos h] at hy
      rcases hy with _ | ⟨_, hy⟩
      · exact Or.inl rfl
      · exact Or.inr hy
    · rw [if_neg h] at hy
      rcases hy with _ | ⟨_, hy⟩
      · exact Or.inr (by simp)
      · rcases ih y hy with h1 | h1
        · exact Or.inl h1
        · exact Or.inr (by simp [h1])

lemma mem_sort_on (key : JobProgress → ℕ) :
    ∀ (l : List JobProgress) (y : JobProgress), y ∈ sort_on key l → y ∈ l := by
  intro l
  induction l with
  | nil =>
    intro y hy
    simp [sort_on] at hy
  | cons z zs ih =>
    intro y hy
    simp only [sort_on] at hy
    rcases mem_insert_sorted key z _ y hy with h1 | h1
    · simp [h1]
    · simp [ih y h1]

lemma insert_sorted_le (key : JobProgress → ℕ) (x : JobProgress)
    (l : List JobProgress) (h : ∀ y ∈ l, key x ≤ key y) :
    sort_on.insert_sorted key x l = x :: l := by
  cases l with
  | nil => rfl
  | cons z zs => simp only [sort_on.insert_sorted]; rw [if_pos (h z (by simp))]

lemma sort_on_pairwise_id (key : JobProgress → ℕ) :
    ∀ l : List JobProgress, l.Pairwise (fun a b => key a ≤ key b) →
      sort_on key l = l := by
  intro l
  induction l with
  | nil => intro _; rfl
  | cons z zs ih =>
    intro h
    rcases List.pairwise_cons.mp h with ⟨h1, h2⟩
    simp only [sort_on]
    rw [ih h2, insert_sorted_le key z zs h1]

lemma pairwise_lt_range'_own (s len : ℕ) :
    (List.range' s len).Pairwise (· < ·) := by
  induction len generalizing s with
  | zero => simp
  | succ n ih =>
    rw [range'_succ_one]
    refine List.pairwise_cons.mpr ⟨?_, ih (s+1)⟩
    intro b hb
    have := (List.mem_range'_1).mp hb
    omega
lemma cleanup_keeps_nonterminal (cap : ℕ) (jobs : List JobProgress)
    (hnd : jobs.Pairwise (fun a b => a.job_id ≠ b.job_id)) :
    ∀ j ∈ jobs, is_terminal j.status = false → j ∈ cleanup_old_jobs cap jobs := by
  intro j hj hterm
  rw [cleanup_old_jobs]
  by_cases hlen : cap < (jobs.filter (fun j => is_terminal j.status)).length
  · rw [if_pos hlen]
    rw [List.mem_filter]
    refine ⟨hj, ?_⟩
    rw [decide_eq_true_eq]
    rw [List.any_eq_false]
    intro r hr
    have hr1 : r ∈ jobs.filter (fun j => is_terminal j.status) :=
      mem_sort_on _ _ r (List.mem_of_mem_take hr)
    rcases List.mem_filter.mp hr1 with ⟨hrj, hrt⟩
    intro heq
    have hne : r ≠ j := by
      intro hcontra
      rw [hcontra] at hrt
      rw [hrt] at hterm
      cases hterm
    have := List.Pairwise.forall (fun a b h => (Ne.symm h)) hnd hrj hj hne
    exact this (of_decide_eq_true heq)
  · rw [if_neg hlen]
    exact hj

lemma create_many_eq (cap n : ℕ) : create_many cap n = scenario_state cap n 0 := by
  have key : ∀ m : ℕ, m ≤ n → create_many cap m =
      { jobs := (List.range' 0 m).map scenario_pending, max_history := cap
        now := m } := by
    intro m
    induction m with
    | zero => intro _; rfl
    | succ m ih =>
      intro hm
      rw [create_many, List.range_succ, List.foldl_append]
      have hcm : (List.range m).foldl (fun tr i => create_job tr i "job" none)
          (mk_tracker cap) = create_many cap m := rfl
      rw [hcm, ih (by omega)]
      simp only [List.foldl_cons, List.foldl_nil]
      rw [create_job]
      have hex : job_exists
          { jobs := (List.range' 0 m).map scenario_pending, max_history := cap
            now := m } m = false := by
        rw [job_exists]
        rw [List.any_eq_false]
        intro j hj
        rcases List.mem_map.mp hj with ⟨i, hi, rfl⟩
        have := (List.mem_range'_1).mp hi
        simp [scenario_pending]
        omega
      rw [if_neg (by rw [hex]; simp)]
      simp only []
      congr 1
      rw [range'_concat_one]
      simp [scenario_pending]
  have h := key n (le_refl n)
  rw [h]
  simp [scenario_state]

lemma map_job_append (id : ℕ) (f : JobProgress → JobProgress)
    (a b : List JobProgress) :
    map_job id f (a ++ b) = map_job id f a ++ map_job id f b := by
  simp [map_job]

lemma map_job_cons (id : ℕ) (f : JobProgress → JobProgress)
    (x : JobProgress) (l : List JobProgress) :
    map_job id f (x :: l) =
      (if x.job_id = id then f x else x) :: map_job id f l := by
  simp [map_job]

lemma scenario_done_id (n i : ℕ) : (scenario_done n i).job_id = i := rfl

lemma scenario_done_status (n i : ℕ) :
    (scenario_done n i).status = JStatus.completed := rfl

lemma scenario_done_key (n i : ℕ) :
    (scenario_done n i).completed_at.getD 0 = n + i := rfl

lemma complete_step (cap n k : ℕ) (hcap : 0 < cap) (hk : k < n) :
    complete_job (scenario_state cap n k) k false none =
      .ok (scenario_state cap n (k+1)) := by
  have hminle : min k cap ≤ k := min_le_left _ _
  -- the named job exists (it is the head of the pending segment)
  have hex : job_exists (scenario_state cap n k) k = true := by
    rw [job_exists, List.any_eq_true]
    refine ⟨scenario_pending k, ?_, by simp [scenario_pending]⟩
    simp only [scenario_state, List.mem_append]
    right
    refine List.mem_map.mpr ⟨k, ?_, rfl⟩
    rw [List.mem_range'_1]
    omega
  rw [complete_job, if_neg (by rw [hex]; simp)]
  refine congrArg Except.ok ?_
  -- split off the head of the pending segment
  have hB : (List.range' k (n - k)).map scenario_pending =
      scenario_pending k :: (List.range' (k+1) (n-k-1)).map scenario_pending := by
    have h1 : n - k = (n - k - 1) + 1 := by omega
    rw [h1, range'_succ_one]
    simp
  -- the per-job map only rewrites job k
  have hmapA : map_job k (apply_complete (n+k) false none)
      ((List.range' (k - min k cap) (min k cap)).map (scenario_done n)) =
      (List.range' (k - min k cap) (min k cap)).map (scenario_done n) := by
    refine map_job_absent _ _ _ ?_
    intro j hj
    rcases List.mem_map.mp hj with ⟨i, hi, rfl⟩
    have := List.mem_range'_1.mp hi
    rw [scenario_done_id]
    omega
  have hmaprest : map_job k (apply_complete (n+k) false none)
      ((List.range' (k+1) (n-k-1)).map scenario_pending) =
      (List.range' (k+1) (n-k-1)).map scenario_pending := by
    refine map_job_absent _ _ _ ?_
    intro j hj
    rcases List.mem_map.mp hj with ⟨i, hi, rfl⟩
    have := List.mem_range'_1.mp hi
    simp only [scenario_pending]
    omega
  have hmapjobs : map_job k (apply_complete (n+k) false none)
      ((List.range' (k - min k cap) (min k cap)).map (scenario_done n) ++
       (List.range' k (n - k)).map scenario_pending) =
      (List.range' (k - min k cap) (min k cap)).map (scenario_done n) ++
        scenario_done n k ::
          (List.range' (k+1) (n-k-1)).map scenario_pending := by
    rw [map_job_append, hmapA, hB, map_job_cons, hmaprest]
    rw [if_pos (by simp [scenario_pending])]
    rfl
  -- the finished sublist after the map
  have hfA : ((List.range' (k - min k cap) (min k cap)).map
      (scenario_done n)).filter (fun j => is_terminal j.status) =
      (List.range' (k - min k cap) (min k cap)).map (scenario_done n) := by
    rw [List.filter_eq_self]
    intro j hj
    rcases List.mem_map.mp hj with ⟨i, _, rfl⟩
    rfl
  have hfrest : ((List.range' (k+1) (n-k-1)).map scenario_pending).filter
      (fun j => is_terminal j.status) = [] := by
    rw [List.filter_eq_nil_iff]
    intro j hj
    rcases List.mem_map.mp hj with ⟨i, _, rfl⟩
    simp [scenario_pending, is_terminal]
  have hfin : ((List.range' (k - min k cap) (min k cap)).map (scenario_done n) ++
      scenario_done n k ::
        (List.range' (k+1) (n-k-1)).map scenario_pending).filter
      (fun j => is_terminal j.status) =
      (List.range' (k - min k cap) (min k cap)).map (scenario_done n) ++
        [scenario_done n k] := by
    rw [List.filter_append, hfA, List.filter_cons]
    rw [if_pos (by rfl)]
    rw [hfrest]
  have hfinlen : ((List.range' (k - min k cap) (min k cap)).map (scenario_done n) ++
      [scenario_done n k]).length = min k cap + 1 := by
    simp
  simp only [scenario_state]
  congr 1
  · rw [hmapjobs]
    simp only [cleanup_old_jobs]
    simp only [hfin, hfinlen]
    rcases le_or_lt cap k with hck | hck
    · -- cap ≤ k : one job is evicted
      obtain ⟨c, rfl⟩ : ∃ c, cap = c + 1 := ⟨cap - 1, by omega⟩
      have hm : k ⊓ (c + 1) = c + 1 := by omega
      rw [hm]
      rw [if_pos (by omega)]
      have hA : List.range' (k - (c+1)) (c+1) =
          (k - (c+1)) :: List.range' (k - (c+1) + 1) c := by
        rw [range'_succ_one]
      have hsort : sort_on (fun j => j.completed_at.getD 0)
          ((List.range' (k - (c+1)) (c+1)).map (scenario_done n) ++
            [scenario_done n k]) =
          (List.range' (k - (c+1)) (c+1)).map (scenario_done n) ++
            [scenario_done n k] := by
        apply sort_on_pairwise_id
        rw [List.pairwise_append]
        refine ⟨?_, by simp, ?_⟩
        · rw [List.pairwise_map]
          refine List.Pairwise.imp ?_ (pairwise_lt_range'_own _ _)
          intro a b hab
          rw [scenario_done_key, scenario_done_key]
          omega
        · intro a ha b hb
          rcases List.mem_map.mp ha with ⟨i, hi, rfl⟩
          have hi2 := List.mem_range'_1.mp hi
          rcases List.mem_singleton.mp hb with rfl
          rw [scenario_done_key, scenario_done_key]
          omega
      rw [hsort]
      rw [show c + 1 + 1 - (c + 1) = 1 from by omega]
      rw [hA]
      simp only [List.map_cons, List.cons_append, List.take_succ_cons,
        List.take_zero]
      -- filter away exactly the evicted job id k - (c+1)
      have hpred_done : ∀ i : ℕ, i ≠ k - (c+1) →
          (([scenario_done n (k - (c+1))].any
            (fun r => r.job_id = (scenario_done n i).job_id)) = false) := by
        intro i hi
        simp [scenario_done_id]
        omega
      have hpred_pending : ∀ i : ℕ, i ≠ k - (c+1) →
          (([scenario_done n (k - (c+1))].any
            (fun r => r.job_id = (scenario_pending i).job_id)) = false) := by
        intro i hi
        simp [scenario_done_id, scenario_pending]
        omega
      rw [List.filter_cons]
      rw [if_neg (by simp [scenario_done_id])]
      rw [List.filter_append]
      have hkeepA : ((List.range' (k - (c+1) + 1) c).map
          (scenario_done n)).filter (fun j =>
            (([scenario_done n (k - (c+1))].any
              (fun r => r.job_id = j.job_id)) = false)) =
          (List.range' (k - (c+1) + 1) c).map (scenario_done n) := by
        rw [List.filter_eq_self]
        intro j hj
        rcases List.mem_map.mp hj with ⟨i, hi, rfl⟩
        have := List.mem_range'_1.mp hi
        rw [decide_eq_true_eq]
        exact hpred_done i (by omega)
      rw [hkeepA, List.filter_cons]
      rw [if_pos (by rw [decide_eq_true_eq]; exact hpred_done k (by omega))]
      have hkeepB : ((List.range' (k+1) (n-k-1)).map
          scenario_pending).filter (fun j =>
            (([scenario_done n (k - (c+1))].any
              (fun r => r.job_id = j.job_id)) = false)) =
          (List.range' (k+1) (n-k-1)).map scenario_pending := by
        rw [List.filter_eq_self]
        intro j hj
        rcases List.mem_map.mp hj with ⟨i, hi, rfl⟩
        have := List.mem_range'_1.mp hi
        rw [decide_eq_true_eq]
        exact hpred_pending i (by omega)
      rw [hkeepB]
      -- assemble: range' (k+1-(c+1)) (c+1) = range' (k-(c+1)+1) c ++ [k]
      have hm2 : (k + 1) ⊓ (c + 1) = c + 1 := by omega
      rw [hm2]
      have hsplit : List.range' (k + 1 - (c+1)) (c+1) =
          List.range' (k - (c+1) + 1) c ++ [k] := by
        rw [range'_concat_one]
        have e1 : k + 1 - (c+1) = k - (c+1) + 1 := by omega
        rw [e1]
        rw [show k - (c+1) + 1 + c = k from by omega]
      rw [hsplit]
      rw [show n - (k+1) = n - k - 1 from by omega]
      simp
    · -- k < cap : nothing is evicted yet
      have hm : k ⊓ cap = k := by omega
      rw [hm]
      rw [if_neg (by omega)]
      have hm2 : (k + 1) ⊓ cap = k + 1 := by omega
      rw [hm2]
      rw [show k - k = 0 from by omega, show k + 1 - (k + 1) = 0 from by omega]
      rw [range'_concat_one 0 k]
      rw [show n - (k+1) = n - k - 1 from by omega]
      simp

lemma complete_fold (cap n : ℕ) (hcap : 0 < cap) :
    ∀ (l : List ℕ) (k : ℕ), l = List.range' k (n - k) → k ≤ n →
      l.foldl (fun (acc : Except String JobTracker) i =>
          acc.bind (fun tr => complete_job tr i false none))
        (Except.ok (scenario_state cap n k)) =
        Except.ok (scenario_state cap n n) := by
  intro l
  induction l with
  | nil =>
    intro k hl hk
    have hlen : (0 : ℕ) = n - k := by
      have := congrArg List.length hl
      simpa using this
    have hkn : k = n := by omega
    subst hkn
    rfl
  | cons i rest ih =>
    intro k hl hk
    have hpos : 0 < n - k := by
      by_contra h
      rw [show n - k = 0 from by omega] at hl
      cases hl
    have hnk : n - k = (n - k - 1) + 1 := by omega
    rw [hnk, range'_succ_one] at hl
    injection hl with hi hrest
    subst hi
    rw [List.foldl_cons]
    have hstep : (Except.ok (scenario_state cap n i) : Except String JobTracker).bind
        (fun tr => complete_job tr i false none) = .ok (scenario_state cap n (i+1)) := by
      rw [Except.bind]
      exact complete_step cap n i hcap (by omega)
    rw [hstep]
    refine ih (i + 1) ?_ (by omega)
    rw [hrest]
    rw [show n - i - 1 = n - (i + 1) from by omega]

/-- C10 counterexample: with a history cap of 1, creating two jobs and
cancelling both leaves both in the tracker — `cancel_job` performs no
eviction — so more than historyCap terminal jobs remain. -/
theorem C10_cancel_no_eviction_counterexample :
    ((cancel_job (create_job (create_job (mk_tracker 1) 0 "job" none) 1
        "job" none) 0 none).bind (fun tr => cancel_job tr 1 none)).map
      (fun tr => (tr.max_history, tr.jobs.length,
        tr.jobs.map (fun j => is_terminal j.status)))
      = .ok (1, 2, [true, true]) ∧ (1 : ℕ) < 2 := by
  constructor
  · rfl
  · norm_num

/-- C10 (amended): after creating N jobs and driving all of them to the
COMPLETED terminal state via `complete_job` (N > historyCap > 0), exactly
historyCap jobs remain, and they are the most-recently-completed ones
(ids N-cap .. N-1, evicted oldest-completed-first by completion
timestamp); moreover cleanup never evicts a non-terminal job (given the
tracker's unique job ids).  `cancel_job`, however, does not trigger
eviction at all (see the counterexample), so the bound only holds for
completions and failures. -/
theorem C10_eviction_bound (cap n : ℕ) (hcap : 0 < cap) (hn : cap ≤ n) :
    (complete_all n (create_many cap n) = .ok (scenario_state cap n n) ∧
     (scenario_state cap n n).jobs =
       (List.range' (n - cap) cap).map (scenario_done n) ∧
     (scenario_state cap n n).jobs.length = cap ∧
     ∀ j ∈ (scenario_state cap n n).jobs, j.status = .completed) ∧
    (∀ (capm : ℕ) (jobs : List JobProgress),
      jobs.Pairwise (fun a b => a.job_id ≠ b.job_id) →
      ∀ j ∈ jobs, is_terminal j.status = false →
        j ∈ cleanup_old_jobs capm jobs) := by
  have hjobs : (scenario_state cap n n).jobs =
      (List.range' (n - cap) cap).map (scenario_done n) := by
    simp only [scenario_state]
    rw [show n ⊓ cap = cap from by omega]
    rw [show n - n = 0 from by omega]
    simp
  refine ⟨⟨?_, hjobs, ?_, ?_⟩, cleanup_keeps_nonterminal⟩
  · rw [create_many_eq]
    simp only [complete_all]
    rw [List.range_eq_range']
    refine complete_fold cap n hcap (List.range' 0 n) 0 ?_ (by omega)
    rw [show n - 0 = n from by omega]
  · rw [hjobs]
    simp
  · intro j hj
    rw [hjobs] at hj
    rcases List.mem_map.mp hj with ⟨i, _, rfl⟩
    rfl

/-- Witness for C10_eviction_bound: three jobs, cap 1 — exactly one job
remains after completing all three. -/
theorem C10_eviction_bound_witness :
    complete_all 3 (create_many 1 3) = .ok (scenario_state 1 3 3) ∧
    (scenario_state 1 3 3).jobs.length = 1 :=
  ⟨(C10_eviction_bound 1 3 (by norm_num) (by norm_num)).1.1,
   (C10_eviction_bound 1 3 (by norm_num) (by norm_num)).1.2.2.1⟩


end Akmola
